import Mathlib

/-!
Verification of the VeroBrix legal-analysis core: text segmentation
(`agents/JARVIS/jarvis_agent.py`), situation classification
(`modules/situation_interpreter.py`), contradiction detection
(`modules/nlp_processor.py`, `agents/JARVIS/jarvis_agent.py`), sovereignty
scoring (`modules/sovereignty_scorer.py`) and the provenance ledger
(`modules/provenance_logger.py`).  Text is modelled as `List Char`,
floating-point scores as `ℚ`.
-/

namespace VB

/-- Text is modelled as a list of characters. -/
abbrev Str := List Char

/-- Coerce a Lean string literal to the model's text type. -/
def str (s : String) : Str := s.data

/-- Python whitespace characters (as used by `str.strip` and `\s`). -/
def isWsChar (c : Char) : Bool :=
  c = ' ' || c = '\t' || c = '\n' || c = '\x0d' || c = Char.ofNat 11 || c = Char.ofNat 12

/-- Sentence-terminating characters of the source's split regex `[.!?]+`. -/
def isTermChar (c : Char) : Bool :=
  c = '.' || c = '!' || c = '?'

/-- Python `str.strip()`: drop whitespace from both ends. -/
def pyStrip (s : Str) : Str :=
  (s.dropWhile isWsChar).rdropWhile isWsChar

/-- Python `pat in s`: substring containment. -/
def isSubstr (pat s : Str) : Bool :=
  s.tails.any (fun t => pat.isPrefixOf t)

/-- Python `s.find(pat)`: index of the first occurrence, `none` for Python's `-1`. -/
def strFind (pat : Str) : Str → Option Nat
  | [] => if pat.isPrefixOf [] then some 0 else none
  | c :: t =>
    if pat.isPrefixOf (c :: t) then some 0 else (strFind pat t).map (· + 1)

/-- Python `s.count(pat)` for a nonempty pattern: non-overlapping occurrences.
The fuel argument is only a structural-recursion bound; it is never exhausted
when it starts at `s.length + 1`. -/
def strCountAux (pat : Str) : Nat → Str → Nat
  | 0, _ => 0
  | fuel + 1, s =>
    if !pat.isEmpty && pat.isPrefixOf s then
      1 + strCountAux pat fuel (s.drop pat.length)
    else
      match s with
      | [] => 0
      | _ :: t => strCountAux pat fuel t

/-- Python `s.count(pat)` for a nonempty pattern. -/
def strCount (pat s : Str) : Nat := strCountAux pat (s.length + 1) s

/-- Python `s.replace(pat, rep)`: replace all non-overlapping occurrences,
leftmost first (fuel-bounded structural recursion, never exhausted). -/
def pyReplaceAux (pat rep : Str) : Nat → Str → Str
  | 0, s => s
  | fuel + 1, s =>
    if !pat.isEmpty && pat.isPrefixOf s then
      rep ++ pyReplaceAux pat rep fuel (s.drop pat.length)
    else
      match s with
      | [] => []
      | c :: t => c :: pyReplaceAux pat rep fuel t

/-- Python `s.replace(pat, rep)`. -/
def pyReplace (pat rep s : Str) : Str := pyReplaceAux pat rep (s.length + 1) s

/-- Scanner for the source's `re.split(r'[.!?]+\s+', text)`: a maximal run of
sentence terminators followed by at least one whitespace character separates
two pieces; a terminator run not followed by whitespace stays in the text
(fuel-bounded structural recursion, never exhausted). -/
def splitTermWsAux (fuel : Nat) (s acc : Str) : List Str :=
  match fuel with
  | 0 => [acc.reverse ++ s]
  | fuel + 1 =>
    match s with
    | [] => [acc.reverse]
    | c :: rest =>
      if isTermChar c then
        let run := rest.takeWhile isTermChar
        let afterRun := rest.dropWhile isTermChar
        let ws := afterRun.takeWhile isWsChar
        if ws.isEmpty then
          splitTermWsAux fuel afterRun (run.reverse ++ c :: acc)
        else
          acc.reverse :: splitTermWsAux fuel (afterRun.dropWhile isWsChar) []
      else
        splitTermWsAux fuel rest (c :: acc)

/-- Source `re.split(r'[.!?]+\s+', text)` from `extract_clauses`. -/
def splitTermWs (s : Str) : List Str := splitTermWsAux (s.length + 1) s []

/-- The legal abbreviations protected by `extract_clauses`. -/
def jarvisAbbrevs : List Str :=
  [str "U.S.", str "U.S.C.", str "C.F.R.", str "Fed.", str "Reg.",
   str "Inc.", str "Corp.", str "Ltd.", str "Co.", str "vs.", str "v."]

/-- The placeholder `__ABBREV_{i}__` substituted for the `i`-th abbreviation. -/
def placeholder (i : Nat) : Str := str ("__ABBREV_" ++ toString i ++ "__")

/-- Source `extract_clauses` from `agents/JARVIS/jarvis_agent.py`: strip, protect
abbreviations by placeholder substitution, split on sentence boundaries,
restore abbreviations, strip each piece and drop empty pieces. -/
def extractClauses (text : Str) : List Str :=
  let t := pyStrip text
  let temp := jarvisAbbrevs.enum.foldl
    (fun acc p => pyReplace p.2 (placeholder p.1) acc) t
  let clauses := splitTermWs temp
  let restored := jarvisAbbrevs.enum.foldl
    (fun cs p => cs.map (pyReplace (placeholder p.1) p.2)) clauses
  (restored.map pyStrip).filter (fun c => !c.isEmpty)

/-! ### A small regex engine

The source drives its analysis off `re.search` / `re.finditer` / `re.findall`
/ `re.sub` over a fixed set of pattern strings.  We embed the fragment of
Python's regex language those patterns use (literals, `.`, character classes,
escapes `\b \s \d \w`, groups, alternation, greedy/lazy quantifiers and
bounded repetition) with a pattern parser, so the pattern tables below can be
transcribed verbatim from the source, and a backtracking matcher with
Python's leftmost / priority-order semantics.  All recursion is fuel-bounded
and structural so that concrete runs reduce in the kernel. -/

/-- One item of a character class `[...]`. -/
inductive ClsItem where
  | ch (c : Char)
  | range (lo hi : Char)
  | digit
  | word
  | space

/-- Regular-expression AST for the fragment used by the source. -/
inductive RE where
  | eps
  | dot
  | lit (c : Char)
  | cls (neg : Bool) (items : List ClsItem)
  | seq (a b : RE)
  | alt (a b : RE)
  | rep (a : RE) (lo : Nat) (hi : Option Nat) (lazy : Bool)
  | grp (idx : Option Nat) (a : RE)
  | wb

/-- Python `\w`: ASCII letters, digits and underscore. -/
def isWordChar (c : Char) : Bool := c.isAlphanum || c = '_'

/-- Swap the case of an ASCII letter. -/
def swapCase (c : Char) : Char :=
  if c.isUpper then c.toLower else if c.isLower then c.toUpper else c

/-- Does a class item match a character (case-sensitively)? -/
def clsItemMatch (it : ClsItem) (c : Char) : Bool :=
  match it with
  | .ch x => c = x
  | .range lo hi => decide (lo ≤ c) && decide (c ≤ hi)
  | .digit => c.isDigit
  | .word => isWordChar c
  | .space => isWsChar c

/-- Does a character class match a character, honouring `re.IGNORECASE`? -/
def clsMatch (ic neg : Bool) (items : List ClsItem) (c : Char) : Bool :=
  let base := fun x => items.any (fun it => clsItemMatch it x)
  let m := if ic then base c || base (swapCase c) else base c
  if neg then !m else m

/-- Does a literal match a character, honouring `re.IGNORECASE`? -/
def litMatch (ic : Bool) (c0 c : Char) : Bool :=
  if ic then c0 = c || c0 = swapCase c else c0 = c

/-- Matcher state: remaining input, absolute position, whether the previous
character was a word character (for `\b`), and captured group spans. -/
structure MSt where
  rest : Str
  pos : Nat
  prevIsWord : Bool
  caps : List (Nat × Nat × Nat)

/-- Backtracking CPS matcher with Python's priority-order semantics: the
first success in alternation/effort order is returned, quantifiers are
greedy unless marked lazy, and empty repetitions are cut off. -/
def mrun (ic : Bool) : Nat → RE → MSt → (MSt → Option MSt) → Option MSt
  | 0, _, _, _ => none
  | fuel + 1, re, st, k =>
    match re with
    | .eps => k st
    | .dot =>
      match st.rest with
      | [] => none
      | c :: t => if c = '\n' then none else k ⟨t, st.pos + 1, isWordChar c, st.caps⟩
    | .lit c0 =>
      match st.rest with
      | [] => none
      | c :: t => if litMatch ic c0 c then k ⟨t, st.pos + 1, isWordChar c, st.caps⟩ else none
    | .cls neg items =>
      match st.rest with
      | [] => none
      | c :: t =>
        if clsMatch ic neg items c then k ⟨t, st.pos + 1, isWordChar c, st.caps⟩ else none
    | .seq a b => mrun ic fuel a st (fun st2 => mrun ic fuel b st2 k)
    | .alt a b =>
      match mrun ic fuel a st k with
      | some r => some r
      | none => mrun ic fuel b st k
    | .grp idx a =>
      mrun ic fuel a st (fun st2 =>
        match idx with
        | none => k st2
        | some i => k ⟨st2.rest, st2.pos, st2.prevIsWord, (i, st.pos, st2.pos) :: st2.caps⟩)
    | .wb =>
      let nextIsWord :=
        match st.rest with
        | [] => false
        | c :: _ => isWordChar c
      if st.prevIsWord != nextIsWord then k st else none
    | .rep a lo hi lz =>
      match lo with
      | l + 1 =>
        mrun ic fuel a st (fun st2 => mrun ic fuel (.rep a l (hi.map (· - 1)) lz) st2 k)
      | 0 =>
        match hi with
        | some 0 => k st
        | _ =>
          if lz then
            match k st with
            | some r => some r
            | none =>
              mrun ic fuel a st (fun st2 =>
                if st2.pos = st.pos then none
                else mrun ic fuel (.rep a 0 (hi.map (· - 1)) lz) st2 k)
          else
            match
              mrun ic fuel a st (fun st2 =>
                if st2.pos = st.pos then none
                else mrun ic fuel (.rep a 0 (hi.map (· - 1)) lz) st2 k)
            with
            | some r => some r
            | none => k st

/-- Structural size of a regex, used to size the matcher's fuel. -/
def reSize : RE → Nat
  | .eps | .dot | .lit _ | .cls _ _ | .wb => 1
  | .seq a b | .alt a b => 1 + reSize a + reSize b
  | .rep a _ hi _ => 2 + (match hi with | some n => n | none => 0) + reSize a
  | .grp _ a => 1 + reSize a

/-- A completed match: start position, end position, captured group spans. -/
structure MatchRes where
  start : Nat
  stop : Nat
  caps : List (Nat × Nat × Nat)

/-- Try to match `re` at successive start positions (Python `re.search`):
returns the leftmost match. -/
def mSearchAux (ic : Bool) (re : RE) (fuel0 : Nat) :
    Nat → Str → Nat → Bool → Option MatchRes
  | 0, _, _, _ => none
  | _ + 1, s, pos, prevW =>
    match mrun ic fuel0 re ⟨s, pos, prevW, []⟩ (fun st => some st) with
    | some st => some ⟨pos, st.pos, st.caps⟩
    | none =>
      match s with
      | [] => none
      | c :: t => mSearchAux ic re fuel0 t.length.succ t (pos + 1) (isWordChar c)

/-- Python `re.search(pat, s, flags)` on a parsed pattern. -/
def mSearch (ic : Bool) (re : RE) (s : Str) : Option MatchRes :=
  mSearchAux ic re ((s.length + 2) * (reSize re + 2) * 8) (s.length + 1) s 0 false

/-- All non-overlapping matches from left to right (Python `re.finditer`). -/
def mFindAllAux (ic : Bool) (re : RE) (whole : Str) :
    Nat → Str → Nat → Bool → List MatchRes
  | 0, _, _, _ => []
  | fuel + 1, s, pos, prevW =>
    match mSearchAux ic re ((whole.length + 2) * (reSize re + 2) * 8)
        (s.length + 1) s pos prevW with
    | none => []
    | some m =>
      let consumed := m.stop - pos
      if consumed = 0 then
        -- empty match: emit and advance one character, as Python does
        match s.drop (m.start - pos) with
        | [] => [m]
        | c :: t => m :: mFindAllAux ic re whole fuel t (m.start + 1) (isWordChar c)
      else
        let s2 := s.drop (m.stop - pos)
        let prev2 :=
          match (s.drop (m.stop - pos - 1)).head? with
          | some c => isWordChar c
          | none => prevW
        m :: mFindAllAux ic re whole fuel s2 m.stop prev2

/-- Python `re.finditer(pat, s, flags)` on a parsed pattern. -/
def mFindAll (ic : Bool) (re : RE) (s : Str) : List MatchRes :=
  mFindAllAux ic re s (s.length + 1) s 0 false

/-- The slice `s[a:b]`. -/
def sliceStr (s : Str) (a b : Nat) : Str := (s.drop a).take (b - a)

/-- Text of capture group `i` of a match (empty for a non-participating
group, as in Python's `findall`). -/
def capText (s : Str) (m : MatchRes) (i : Nat) : Str :=
  match m.caps.find? (fun c => c.1 = i) with
  | some c => sliceStr s c.2.1 c.2.2
  | none => []

/-! #### Pattern parser -/

/-- Parse the inside of a character class up to `]`. -/
def parseClsItems : Nat → Str → Option (List ClsItem × Str)
  | 0, _ => none
  | _ + 1, [] => none
  | fuel + 1, c :: t =>
    if c = ']' then some ([], t)
    else
      let item? : Option (ClsItem × Str) :=
        if c = '\\' then
          match t with
          | [] => none
          | e :: t2 =>
            if e = 'd' then some (.digit, t2)
            else if e = 'w' then some (.word, t2)
            else if e = 's' then some (.space, t2)
            else some (.ch e, t2)
        else
          match t with
          | '-' :: hi :: t2 =>
            if hi = ']' then some (.ch c, t)   -- trailing '-' is a literal
            else some (.range c hi, t2)
          | _ => some (.ch c, t)
      match item? with
      | none => none
      | some (it, t2) =>
        match parseClsItems fuel t2 with
        | none => none
        | some (its, t3) => some (it :: its, t3)

/-- Parse a decimal number. -/
def parseNatAux : Nat → Str → Nat → Option (Nat × Str)
  | 0, _, _ => none
  | fuel + 1, s, acc =>
    match s with
    | c :: t =>
      if c.isDigit then
        match parseNatAux fuel t (acc * 10 + (c.toNat - 48)) with
        | some r => some r
        | none => some (acc * 10 + (c.toNat - 48), t)
      else some (acc, t.cons c)
    | [] => some (acc, [])

/-- Parse a decimal number, requiring at least one digit. -/
def parsePatNat (s : Str) : Option (Nat × Str) :=
  match s with
  | c :: _ =>
    if c.isDigit then parseNatAux (s.length + 1) s 0 else none
  | [] => none

/-- Parser mode: alternation, concatenation, quantified atom, or atom.
A single fuel-indexed function (rather than a mutual block) so that the
recursion is structural and concrete parses reduce in the kernel. -/
inductive PMode where
  | alt
  | seq
  | rep
  | atom

/-- Recursive-descent parser for the pattern fragment: `parseREAux fuel mode
s g` parses `s` in the given mode with next capture-group index `g`. -/
def parseREAux : Nat → PMode → Str → Nat → Option (RE × Str × Nat)
  | 0, _, _, _ => none
  | fuel + 1, .alt, s, g =>
    (match parseREAux fuel .seq s g with
     | none => none
     | some (a, s1, g1) =>
       match s1 with
       | '|' :: t =>
         (match parseREAux fuel .alt t g1 with
          | none => none
          | some (b, s2, g2) => some (.alt a b, s2, g2))
       | _ => some (a, s1, g1))
  | fuel + 1, .seq, s, g =>
    (match s with
     | [] => some (.eps, [], g)
     | ')' :: _ => some (.eps, s, g)
     | '|' :: _ => some (.eps, s, g)
     | _ =>
       match parseREAux fuel .rep s g with
       | none => none
       | some (a, s1, g1) =>
         match s1 with
         | [] => some (a, [], g1)
         | ')' :: _ => some (a, s1, g1)
         | '|' :: _ => some (a, s1, g1)
         | _ =>
           match parseREAux fuel .seq s1 g1 with
           | none => none
           | some (b, s2, g2) => some (.seq a b, s2, g2))
  | fuel + 1, .rep, s, g =>
    (match parseREAux fuel .atom s g with
     | none => none
     | some (a, s1, g1) =>
       match s1 with
       | '*' :: '?' :: t => some (.rep a 0 none true, t, g1)
       | '*' :: t => some (.rep a 0 none false, t, g1)
       | '+' :: '?' :: t => some (.rep a 1 none true, t, g1)
       | '+' :: t => some (.rep a 1 none false, t, g1)
       | '?' :: '?' :: t => some (.rep a 0 (some 1) true, t, g1)
       | '?' :: t => some (.rep a 0 (some 1) false, t, g1)
       | '\x7b' :: t =>
         (match parsePatNat t with
          | none => none
          | some (lo, t2) =>
            match t2 with
            | '\x7d' :: t3 => some (.rep a lo (some lo) false, t3, g1)
            | ',' :: '\x7d' :: t3 => some (.rep a lo none false, t3, g1)
            | ',' :: t3 =>
              (match parsePatNat t3 with
               | none => none
               | some (hi, t4) =>
                 match t4 with
                 | '\x7d' :: t5 => some (.rep a lo (some hi) false, t5, g1)
                 | _ => none)
            | _ => none)
       | _ => some (a, s1, g1))
  | fuel + 1, .atom, s, g =>
    (match s with
     | [] => none
     | '(' :: '?' :: ':' :: t =>
       (match parseREAux fuel .alt t g with
        | none => none
        | some (a, s1, g1) =>
          match s1 with
          | ')' :: t2 => some (.grp none a, t2, g1)
          | _ => none)
     | '(' :: t =>
       (match parseREAux fuel .alt t (g + 1) with
        | none => none
        | some (a, s1, g1) =>
          match s1 with
          | ')' :: t2 => some (.grp (some g) a, t2, g1)
          | _ => none)
     | '[' :: '^' :: t =>
       (match parseClsItems (t.length + 1) t with
        | none => none
        | some (its, t2) => some (.cls true its, t2, g))
     | '[' :: t =>
       (match parseClsItems (t.length + 1) t with
        | none => none
        | some (its, t2) => some (.cls false its, t2, g))
     | '\\' :: e :: t =>
       if e = 'b' then some (.wb, t, g)
       else if e = 'd' then some (.cls false [.digit], t, g)
       else if e = 'w' then some (.cls false [.word], t, g)
       else if e = 's' then some (.cls false [.space], t, g)
       else some (.lit e, t, g)
     | '.' :: t => some (.dot, t, g)
     | c :: t => some (.lit c, t, g))

/-- Parse a full pattern string; `none` on a parse failure (no such pattern
occurs in the transcribed tables). -/
def parseRE (pat : String) : Option RE :=
  match parseREAux (pat.length * 8 + 16) .alt (str pat) 1 with
  | some (a, [], _) => some a
  | _ => none

/-- Python `re.search(pat, s, flags)`: leftmost match of a pattern string. -/
def reSearch (ic : Bool) (pat : String) (s : Str) : Option MatchRes :=
  match parseRE pat with
  | none => none
  | some re => mSearch ic re s

/-- Python `re.finditer(pat, s, flags)`. -/
def reFindIter (ic : Bool) (pat : String) (s : Str) : List MatchRes :=
  match parseRE pat with
  | none => []
  | some re => mFindAll ic re s

/-- Number of capturing groups of a pattern. -/
def reGroupCount : RE → Nat
  | .eps | .dot | .lit _ | .cls _ _ | .wb => 0
  | .seq a b | .alt a b => reGroupCount a + reGroupCount b
  | .rep a _ _ _ => reGroupCount a
  | .grp none a => reGroupCount a
  | .grp (some _) a => 1 + reGroupCount a

/-- Python `re.findall(pat, s, flags)` restricted to the shapes the source
uses: with no capture group it returns whole-match strings, with exactly one
group the group-1 strings. -/
def reFindAllStr (ic : Bool) (pat : String) (s : Str) : List Str :=
  match parseRE pat with
  | none => []
  | some re =>
    let ms := mFindAll ic re s
    if reGroupCount re = 0 then
      ms.map (fun m => sliceStr s m.start m.stop)
    else
      ms.map (fun m => capText s m 1)

/-- Python `re.findall(pat, s, flags)` for a pattern with two capture
groups: returns the pairs of group texts. -/
def reFindAllPairs (ic : Bool) (pat : String) (s : Str) : List (Str × Str) :=
  match parseRE pat with
  | none => []
  | some re => (mFindAll ic re s).map (fun m => (capText s m 1, capText s m 2))

/-- Python `len(re.findall(pat, s, flags))`: the number of matches. -/
def reCountMatches (ic : Bool) (pat : String) (s : Str) : Nat :=
  match parseRE pat with
  | none => 0
  | some re => (mFindAll ic re s).length

/-- Splice replacement text over a list of disjoint match spans
(Python `re.sub` with a literal replacement). -/
def spliceAll (rep : Str) : Nat → Str → Nat → List (Nat × Nat) → Str
  | 0, s, _, _ => s
  | _ + 1, s, cur, [] => s.drop cur
  | fuel + 1, s, cur, (a, b) :: tl =>
    sliceStr s cur a ++ rep ++ spliceAll rep fuel s b tl

/-- Python `re.sub(pat, rep, s)` with a literal replacement string. -/
def reSub (ic : Bool) (pat : String) (rep : Str) (s : Str) : Str :=
  match parseRE pat with
  | none => s
  | some re =>
    let ms := mFindAll ic re s
    spliceAll rep (ms.length + 1) s 0 (ms.map (fun m => (m.start, m.stop)))

/-! ### Situation interpreter (`modules/situation_interpreter.py`) -/

/-- Python's `max(items, key=lambda x: x[1])`: the first element attaining
the maximal value, in iteration order. -/
def firstMaxBy {α : Type} (xs : List (α × Nat)) : Option (α × Nat) :=
  match xs with
  | [] => none
  | x :: rest => some (rest.foldl (fun b y => if y.2 > b.2 then y else b) x)

/-- One entry of `_load_situation_patterns`. -/
structure SitPattern where
  keywords : List Str
  phrases : List Str
  entities : List String

/-- Source `_load_situation_patterns`, in the source's dict insertion order. -/
def situationPatterns : List (String × SitPattern) :=
  [("traffic_stop",
    { keywords := [str "traffic", str "driving", str "vehicle", str "license",
        str "registration", str "insurance", str "speeding", str "violation",
        str "citation", str "ticket", str "officer", str "police", str "patrol",
        str "stop", str "pulled over"]
      phrases := [str "pulled over", str "traffic stop", str "speeding ticket",
        str "license and registration", str "proof of insurance",
        str "vehicle inspection", str "moving violation"]
      entities := ["officer", "department", "citation_number", "vehicle", "location"] }),
   ("fee_demand",
    { keywords := [str "fee", str "fine", str "penalty", str "charge", str "payment",
        str "bill", str "invoice", str "assessment", str "tax", str "levy",
        str "collection", str "demand", str "notice"]
      phrases := [str "payment due", str "fee schedule", str "penalty assessment",
        str "collection notice", str "final demand", str "administrative fee",
        str "processing charge"]
      entities := ["agency", "amount", "due_date", "account_number", "fee_type"] }),
   ("court_summons",
    { keywords := [str "court", str "summons", str "complaint", str "lawsuit",
        str "litigation", str "hearing", str "appearance", str "defendant",
        str "plaintiff", str "case", str "docket", str "judge"]
      phrases := [str "court appearance", str "legal proceeding", str "civil action",
        str "court order", str "summons and complaint", str "hearing date",
        str "case number"]
      entities := ["court", "case_number", "hearing_date", "plaintiff", "judge"] }),
   ("contract_dispute",
    { keywords := [str "contract", str "agreement", str "breach", str "default",
        str "terms", str "conditions", str "obligation", str "performance",
        str "consideration", str "party", str "dispute"]
      phrases := [str "breach of contract", str "contract dispute",
        str "terms and conditions", str "failure to perform",
        str "contract violation", str "agreement terms"]
      entities := ["parties", "contract_date", "terms", "breach_type", "damages"] }),
   ("administrative_action",
    { keywords := [str "agency", str "department", str "administrative",
        str "regulation", str "compliance", str "enforcement", str "investigation",
        str "audit", str "inspection", str "permit"]
      phrases := [str "administrative action", str "regulatory compliance",
        str "agency investigation", str "permit application",
        str "inspection notice", str "compliance order"]
      entities := ["agency", "regulation", "permit_number", "inspector", "violation"] }),
   ("property_dispute",
    { keywords := [str "property", str "real estate", str "land", str "title",
        str "deed", str "ownership", str "boundary", str "easement", str "lien",
        str "mortgage", str "foreclosure"]
      phrases := [str "property dispute", str "title issue", str "boundary dispute",
        str "property rights", str "real estate matter", str "land ownership",
        str "property claim"]
      entities := ["property_address", "title_company", "deed_date", "owner", "claimant"] })]

/-- Source `_load_jurisdiction_indicators`, in the source's dict insertion order. -/
def jurisdictionIndicators : List (String × List Str) :=
  [("federal", [str "federal", str "united states", str "u.s.", str "irs", str "fbi",
      str "dea", str "atf", str "customs", str "immigration", str "social security",
      str "medicare"]),
   ("state", [str "state", str "commonwealth", str "dmv", str "department of",
      str "state police", str "state court", str "state agency", str "governor",
      str "legislature"]),
   ("local", [str "city", str "county", str "municipal", str "town", str "village",
      str "parish", str "local", str "mayor", str "council", str "commissioner"]),
   ("commercial", [str "commercial", str "business", str "trade", str "commerce",
      str "ucc", str "contract", str "agreement", str "transaction", str "sale",
      str "purchase"])]

/-- ASCII lower-casing, Python `str.lower()`. -/
def lowerStr (s : Str) : Str := s.map Char.toLower

/-- The abbreviation substitutions of `_normalize_text`, in dict insertion
order.  Each key is inserted verbatim into the pattern `\b<key>\b`, so the
`.` of `v.` is a regex metacharacter, as in the source. -/
def interpAbbrevPairs : List (String × String) :=
  [("dept", "department"), ("gov", "government"), ("admin", "administrative"),
   ("reg", "regulation"), ("sec", "section"), ("vs", "versus"), ("v.", "versus")]

/-- Source `_normalize_text`: lowercase, collapse whitespace, strip, expand
abbreviations. -/
def normalizeText (text : Str) : Str :=
  let t := lowerStr text
  let t := pyStrip (reSub false "\\s+" (str " ") t)
  interpAbbrevPairs.foldl
    (fun acc p => reSub false ("\\b" ++ p.1 ++ "\\b") (str p.2) acc) t

/-- The per-category score of `_identify_situation_type`: +1 for every
keyword contained in the text, +3 for every phrase contained in the text. -/
def situationScores (text : Str) : List (String × Nat) :=
  situationPatterns.map (fun p =>
    (p.1, p.2.keywords.countP (fun k => isSubstr k text)
      + 3 * p.2.phrases.countP (fun ph => isSubstr ph text)))

/-- The score as the spec's words read literally (second definition, for
comparison with `situationScores` from the source): `+1` per keyword
*occurrence* and `+3` per phrase *occurrence*, counting non-overlapping
occurrences as Python `str.count` would. -/
def occurrenceScores (text : Str) : List (String × Nat) :=
  situationPatterns.map (fun p =>
    (p.1, (p.2.keywords.map (fun k => strCount k text)).sum
      + 3 * (p.2.phrases.map (fun ph => strCount ph text)).sum))

/-- Source `_identify_situation_type`: the first category attaining the maximal
score wins if its score is positive, else `general`. -/
def identifySituationType (text : Str) : String :=
  match firstMaxBy (situationScores text) with
  | none => "general"
  | some best => if best.2 > 0 then best.1 else "general"

/-- The `entities` record of `_extract_entities`. -/
structure Entities where
  people : List Str
  organizations : List Str
  locations : List Str
  dates : List Str
  amounts : List Str
  identifiers : List Str
  legal_instruments : List Str
deriving Repr

/-- Source `_extract_entities`: independent case-insensitive regex passes. -/
def extractEntities (text : Str) : Entities :=
  { people :=
      ["\\b[A-Z][a-z]+ [A-Z][a-z]+\\b",
       "\\b(?:officer|judge|attorney|mr|ms|mrs)\\.?\\s+[A-Z][a-z]+\\b"].foldl
        (fun acc p => acc ++ reFindAllStr true p text) []
    organizations :=
      ["\\b[A-Z][a-z]*\\s+(?:department|agency|bureau|office|court|police)\\b",
       "\\b(?:department|agency|bureau|office|court|police)\\s+of\\s+[A-Z][a-z]+\\b"].foldl
        (fun acc p => acc ++ reFindAllStr true p text) []
    locations := []
    dates :=
      ["\\b\\d\x7b1,2\x7d/\\d\x7b1,2\x7d/\\d\x7b2,4\x7d\\b",
       "\\b\\d\x7b1,2\x7d-\\d\x7b1,2\x7d-\\d\x7b2,4\x7d\\b",
       "\\b(?:january|february|march|april|may|june|july|august|september|october|november|december)\\s+\\d\x7b1,2\x7d,?\\s+\\d\x7b4\x7d\\b"].foldl
        (fun acc p => acc ++ reFindAllStr true p text) []
    amounts :=
      ["\\$\\d+(?:,\\d\x7b3\x7d)*(?:\\.\\d\x7b2\x7d)?",
       "\\b\\d+(?:,\\d\x7b3\x7d)*(?:\\.\\d\x7b2\x7d)?\\s+dollars?\\b"].foldl
        (fun acc p => acc ++ reFindAllStr true p text) []
    identifiers :=
      ["\\b(?:case|citation|ticket|docket)\\s*#?\\s*[A-Z0-9-]+\\b",
       "\\b[A-Z]\x7b2,\x7d\\d\x7b4,\x7d\\b"].foldl
        (fun acc p => acc ++ reFindAllStr true p text) []
    legal_instruments := [] }

/-- The jurisdiction record of `_determine_jurisdiction`. -/
structure Jurisdiction where
  primary : String
  secondary : List String
  indicators : List String
  confidence : ℚ
deriving Repr

/-- Per-bucket jurisdiction scores: +1 per indicator contained in the text. -/
def jurisdictionScores (text : Str) : List (String × Nat) :=
  jurisdictionIndicators.map (fun p => (p.1, p.2.countP (fun ind => isSubstr ind text)))

/-- The `"{jtype}: {indicator}"` tags collected while scoring. -/
def jurisdictionIndicatorTags (text : Str) : List String :=
  jurisdictionIndicators.foldl (fun acc p =>
    acc ++ (p.2.filter (fun ind => isSubstr ind text)).map
      (fun ind => p.1 ++ ": " ++ String.mk ind)) []

/-- Source `_determine_jurisdiction` (its `entities` parameter is unused in the
source): primary is the first maximal bucket when its score is positive,
confidence is `min(score/5, 1.0)`, every other bucket with a positive score
becomes secondary. -/
def determineJurisdiction (text : Str) : Jurisdiction :=
  let scores := jurisdictionScores text
  let base : Jurisdiction :=
    { primary := "unknown", secondary := [], indicators := jurisdictionIndicatorTags text,
      confidence := 0 }
  let j :=
    match firstMaxBy scores with
    | none => base
    | some prim =>
      if prim.2 > 0 then
        { base with primary := prim.1, confidence := min ((prim.2 : ℚ) / 5) 1 }
      else base
  { j with secondary := (scores.filter (fun p => p.1 != j.primary && p.2 != 0)).map (·.1) }

/-- One relationship record of `_identify_relationships`. -/
structure Relationship where
  type : String
  entity1 : Str
  entity2 : Str
deriving Repr

/-- The relationship patterns, each with two capture groups. -/
def relationshipPatterns : List (String × String) :=
  [("(\\w+)\\s+(?:vs?\\.?|versus)\\s+(\\w+)", "adversarial"),
   ("(\\w+)\\s+(?:and|&)\\s+(\\w+)", "joint"),
   ("(\\w+)\\s+(?:represents?|representing)\\s+(\\w+)", "representation"),
   ("(\\w+)\\s+(?:sues?|suing)\\s+(\\w+)", "litigation"),
   ("(\\w+)\\s+(?:contracts?|contracting)\\s+(?:with\\s+)?(\\w+)", "contractual")]

/-- Source `_identify_relationships` (its `entities` parameter is unused in the
source). -/
def identifyRelationships (text : Str) : List Relationship :=
  relationshipPatterns.foldl (fun acc pr =>
    acc ++ (reFindAllPairs true pr.1 text).map (fun m => ⟨pr.2, m.1, m.2⟩)) []

/-- Source `_extract_key_facts`: situation-specific single-group regex passes. -/
def extractKeyFacts (text : Str) (stype : String) : List Str :=
  let pats :=
    if stype = "traffic_stop" then
      ["(?:speed|speeding).*?(\\d+\\s*mph)",
       "(?:location|where|at).*?([A-Z][a-z]+\\s+(?:street|road|avenue|highway))",
       "(?:time|when).*?(\\d\x7b1,2\x7d:\\d\x7b2\x7d(?:\\s*[ap]m)?)"]
    else if stype = "fee_demand" then
      ["(?:amount|fee|fine).*?(\\$\\d+(?:,\\d\x7b3\x7d)*(?:\\.\\d\x7b2\x7d)?)",
       "(?:due|deadline).*?(\\d\x7b1,2\x7d/\\d\x7b1,2\x7d/\\d\x7b2,4\x7d)",
       "(?:account|reference).*?([A-Z0-9-]+)"]
    else
      ["(?:date|when).*?(\\d\x7b1,2\x7d/\\d\x7b1,2\x7d/\\d\x7b2,4\x7d)",
       "(?:amount|cost|fee).*?(\\$\\d+(?:,\\d\x7b3\x7d)*(?:\\.\\d\x7b2\x7d)?)",
       "(?:location|where|at).*?([A-Z][a-z]+(?:\\s+[A-Z][a-z]+)*)"]
  pats.foldl (fun acc p => acc ++ reFindAllStr true p text) []

/-- The urgency record of `_assess_urgency`. -/
structure Urgency where
  level : String
  indicators : List Str
  timeline : Option Str
deriving Repr

/-- The urgency keyword buckets, in the source's dict insertion order. -/
def urgencyIndicators : List (String × List Str) :=
  [("high", [str "immediate", str "urgent", str "emergency", str "deadline",
      str "final notice", str "court date"]),
   ("medium", [str "soon", str "within", str "by", str "before", str "due"]),
   ("low", [str "when convenient", str "at your earliest", str "please"])]

/-- The timeline extraction patterns of `_assess_urgency`. -/
def timelinePatterns : List String :=
  ["(?:within|by|before)\\s+(\\d+\\s+(?:days?|weeks?|months?))",
   "(?:due|deadline).*?(\\d\x7b1,2\x7d/\\d\x7b1,2\x7d/\\d\x7b2,4\x7d)"]

/-- First-match timeline scan: the first pattern with any match yields its
first match. -/
def firstTimelineMatch (text : Str) : Option Str :=
  timelinePatterns.findSome? (fun p => (reFindAllStr true p text).head?)

/-- Source `_assess_urgency` (its `entities` parameter is unused in the source):
level defaults to `medium`, escalates to `high` on any high indicator, drops
to `low` on a low indicator only if no high indicator fired earlier. -/
def assessUrgency (text : Str) : Urgency :=
  let step := fun (u : Urgency) (p : String × List Str) =>
    p.2.foldl (fun u2 ind =>
      if isSubstr ind text then
        { u2 with
          indicators := u2.indicators ++ [ind]
          level :=
            if p.1 = "high" then "high"
            else if p.1 = "low" then (if u2.level = "high" then u2.level else "low")
            else u2.level }
      else u2) u
  let u := urgencyIndicators.foldl step { level := "medium", indicators := [], timeline := none }
  { u with timeline := firstTimelineMatch text }

/-- Source `_determine_legal_framework`. -/
def determineLegalFramework (stype : String) (j : Jurisdiction) : List String :=
  let base :=
    if stype = "traffic_stop" then
      ["Constitutional law", "Administrative law", "Traffic regulations"]
    else if stype = "fee_demand" then
      ["Administrative law", "Due process", "Collection procedures"]
    else if stype = "court_summons" then
      ["Civil procedure", "Constitutional law", "Jurisdictional law"]
    else if stype = "contract_dispute" then
      ["Contract law", "UCC", "Commercial law"]
    else if stype = "administrative_action" then
      ["Administrative law", "Regulatory compliance", "Due process"]
    else if stype = "property_dispute" then
      ["Property law", "Real estate law", "Title law"]
    else ["General law"]
  base ++
    (if j.primary = "federal" then ["Federal law"]
     else if j.primary = "state" then ["State law"]
     else if j.primary = "local" then ["Local ordinances"]
     else [])

/-- The issue indicators of `_identify_potential_issues`. -/
def issuePatterns : List (String × String) :=
  [("waiver", "Potential rights waiver"), ("consent", "Consent issues"),
   ("jurisdiction", "Jurisdictional questions"), ("authority", "Authority challenges"),
   ("due process", "Due process concerns"), ("notice", "Notice requirements"),
   ("deadline", "Time-sensitive requirements"), ("penalty", "Penalty provisions"),
   ("default", "Default consequences")]

/-- Source `_identify_potential_issues`. -/
def identifyPotentialIssues (text : Str) : List String :=
  (issuePatterns.filter (fun p => isSubstr (str p.1) text)).map (·.2)

/-- Source `_suggest_required_actions`. -/
def suggestRequiredActions (stype : String) (u : Urgency) : List String :=
  let base :=
    if stype = "traffic_stop" then
      ["Document the encounter", "Preserve evidence", "Review citation for errors",
       "Consider challenging jurisdiction"]
    else if stype = "fee_demand" then
      ["Challenge fee authority", "Request fee schedule", "Demand due process hearing",
       "Preserve payment deadline"]
    else if stype = "court_summons" then
      ["File timely response", "Challenge jurisdiction if applicable",
       "Demand bill of particulars", "Preserve all rights"]
    else if stype = "contract_dispute" then
      ["Review contract terms", "Document breach if applicable", "Preserve evidence",
       "Consider mediation"]
    else ["Seek legal counsel", "Document situation"]
  if u.level = "high" then
    "URGENT: Immediate action required" :: base ++ ["Consider emergency legal assistance"]
  else base

/-- The structured situation record built by `interpret_situation`. -/
structure Situation where
  type : String
  raw_input : Str
  normalized_text : Str
  entities : Entities
  jurisdiction : Jurisdiction
  relationships : List Relationship
  key_facts : List Str
  urgency : Urgency
  timestamp : String
  context : List (String × String)
  legal_framework : List String
  potential_issues : List String
  required_actions : List String

/-- Source `interpret_situation`.  The source stamps the record with
`datetime.now().isoformat()`; that clock reading is the explicit `now`
argument here — it is the only input besides the text and the context that
reaches the result. -/
def interpretSituation (inputText : Str) (context : Option (List (String × String)))
    (now : String) : Situation :=
  let nt := normalizeText inputText
  let stype := identifySituationType nt
  let jurisdiction := determineJurisdiction nt
  let urg := assessUrgency nt
  { type := stype
    raw_input := inputText
    normalized_text := nt
    entities := extractEntities nt
    jurisdiction := jurisdiction
    relationships := identifyRelationships nt
    key_facts := extractKeyFacts nt stype
    urgency := urg
    timestamp := now
    context := context.getD []
    legal_framework := determineLegalFramework stype jurisdiction
    potential_issues := identifyPotentialIssues nt
    required_actions := suggestRequiredActions stype urg }

/-! ### Sovereignty scorer (`modules/sovereignty_scorer.py`) -/

/-- The servile language pattern table, in the source's dict insertion
order. -/
def servilePatterns : List (String × List String) :=
  [("submission_language",
    ["\\bplease\\b.*\\b(help|assist|allow|permit)\\b",
     "\\bi\\s+(humbly|respectfully)\\s+(request|ask|beg)\\b",
     "\\bif\\s+it\\s+pleases?\\s+(the\\s+)?(court|your\\s+honor)\\b",
     "\\bwith\\s+all\\s+due\\s+respect\\b",
     "\\bi\\s+am\\s+(just|only|merely)\\s+a\\b",
     "\\bi\\s+don\x27?t\\s+understand\\s+(the\\s+)?law\\b"]),
   ("dependency_language",
    ["\\bneed\\s+(your\\s+)?(permission|approval|authorization)\\b",
     "\\bcan\\s+(you|i)\\s+please\\b",
     "\\bwould\\s+(you|it)\\s+be\\s+possible\\b",
     "\\bi\\s+hope\\s+(you|the\\s+court)\\s+will\\b",
     "\\bif\\s+(you|the\\s+court)\\s+(would|could|might)\\b"]),
   ("victim_language",
    ["\\bi\\s+can\x27?t\\s+(afford|pay|handle)\\b",
     "\\bi\\s+don\x27?t\\s+have\\s+(money|resources|means)\\b",
     "\\bi\\s+am\\s+(poor|indigent|unable)\\b",
     "\\bthis\\s+is\\s+(unfair|unjust)\\s+to\\s+me\\b",
     "\\bwhy\\s+is\\s+this\\s+happening\\s+to\\s+me\\b"]),
   ("corporate_fiction_acceptance",
    ["\\bmy\\s+(social\\s+security\\s+number|ssn)\\s+is\\b",
     "\\bi\\s+am\\s+a\\s+(us\\s+)?(citizen|resident)\\b",
     "\\bunder\\s+penalty\\s+of\\s+perjury\\b",
     "\\bi\\s+(understand|acknowledge)\\s+that\\s+i\\s+am\\s+required\\b",
     "\\bi\\s+consent\\s+to\\s+(jurisdiction|this\\s+court)\\b"])]

/-- The sovereign language pattern table, in the source's dict insertion
order. -/
def sovereignPatterns : List (String × List String) :=
  [("lawful_standing",
    ["\\bi\\s+am\\s+a\\s+(living\\s+)?(man|woman)\\b",
     "\\bacting\\s+in\\s+my\\s+private\\s+capacity\\b",
     "\\bnot\\s+acting\\s+as\\s+(agent|representative|trustee)\\b",
     "\\bby\\s+special\\s+appearance\\s+only\\b",
     "\\breserving\\s+all\\s+(rights|claims)\\b"]),
   ("authority_challenges",
    ["\\bwhat\\s+is\\s+(your\\s+)?authority\\s+for\\b",
     "\\bprove\\s+(your\\s+)?(jurisdiction|authority|standing)\\b",
     "\\bshow\\s+me\\s+the\\s+(law|statute|regulation)\\b",
     "\\bwhere\\s+is\\s+the\\s+(injured\\s+party|victim)\\b",
     "\\bwhat\\s+is\\s+the\\s+nature\\s+of\\s+the\\s+(claim|complaint)\\b"]),
   ("constitutional_assertions",
    ["\\bconstitutional\\s+(right|protection|guarantee)\\b",
     "\\bfourth\\s+amendment\\s+(right|protection)\\b",
     "\\bfifth\\s+amendment\\s+(right|protection)\\b",
     "\\bdue\\s+process\\s+(right|violation|requirement)\\b",
     "\\bequal\\s+protection\\s+(under\\s+)?law\\b"]),
   ("commercial_awareness",
    ["\\bthis\\s+appears\\s+to\\s+be\\s+a\\s+commercial\\s+(matter|transaction)\\b",
     "\\bi\\s+do\\s+not\\s+consent\\s+to\\s+(commercial\\s+)?jurisdiction\\b",
     "\\bno\\s+contract\\s+(exists|was\\s+formed)\\b",
     "\\bwhere\\s+is\\s+the\\s+(consideration|meeting\\s+of\\s+minds)\\b",
     "\\bucc\\s+(article\\s+)?\\d+\\s+(applies|governs)\\b"]),
   ("remedy_focused",
    ["\\bi\\s+(demand|require|claim)\\s+(lawful\\s+)?remedy\\b",
     "\\bmake\\s+me\\s+whole\\b",
     "\\bcompensation\\s+for\\s+(damages|harm|injury)\\b",
     "\\brestitution\\s+(is\\s+)?(required|demanded)\\b",
     "\\bspecific\\s+performance\\s+(is\\s+)?(required|demanded)\\b"])]

/-- The lawful-remedy indicator patterns. -/
def lawfulRemedyPatterns : List String :=
  ["\\bspecific\\s+performance\\b", "\\brestitution\\b", "\\bmake\\s+whole\\b",
   "\\bcompensation\\s+for\\s+(actual\\s+)?(damages|harm)\\b",
   "\\binjunctive\\s+relief\\b"]

/-- The unlawful-remedy indicator patterns. -/
def unlawfulRemedyPatterns : List String :=
  ["\\bpunitive\\s+damages\\b", "\\bpunishment\\b", "\\bfines?\\s+and\\s+penalties\\b",
   "\\bimprisonment\\b", "\\bincarceration\\b"]

/-- The autonomy pattern table, in the source's dict insertion order. -/
def autonomyPatterns : List (String × List String) :=
  [("self_determination",
    ["\\bi\\s+(choose|elect|decide)\\s+to\\b",
     "\\bby\\s+my\\s+own\\s+(choice|decision|will)\\b",
     "\\bacting\\s+under\\s+my\\s+own\\s+authority\\b",
     "\\bself[\\-\\s]?determining\\b",
     "\\bautonomous\\s+(action|decision|choice)\\b"]),
   ("non_consent",
    ["\\bi\\s+do\\s+not\\s+consent\\b", "\\bwithout\\s+my\\s+consent\\b",
     "\\bno\\s+consent\\s+(given|granted|implied)\\b", "\\bunder\\s+duress\\b",
     "\\bcoercion\\s+(is\\s+)?present\\b"])]

/-- Source `_get_servile_severity`. -/
def getServileSeverity (category : String) : ℚ :=
  if category = "submission_language" then 3/10
  else if category = "dependency_language" then 2/5
  else if category = "victim_language" then 1/2
  else if category = "corporate_fiction_acceptance" then 3/5
  else 3/10

/-- Source `_get_sovereign_strength`. -/
def getSovereignStrength (category : String) : ℚ :=
  if category = "lawful_standing" then 2/5
  else if category = "authority_challenges" then 1/2
  else if category = "constitutional_assertions" then 2/5
  else if category = "commercial_awareness" then 3/10
  else if category = "remedy_focused" then 1/2
  else 3/10

/-- Source `_get_servile_suggestion` (its `match` argument is unused in the
source's lookups). -/
def getServileSuggestion (category : String) : String :=
  if category = "submission_language" then
    "Replace submissive language with assertive statements of rights and standing"
  else if category = "dependency_language" then
    "Assert your authority rather than seeking permission"
  else if category = "victim_language" then
    "Focus on lawful remedy rather than personal circumstances"
  else if category = "corporate_fiction_acceptance" then
    "Clarify your standing as a living man/woman, not a legal fiction"
  else "Consider more sovereign language alternatives"

/-- Source `_get_sovereign_explanation` (its `match` argument is unused in the
source's lookups). -/
def getSovereignExplanation (category : String) : String :=
  if category = "lawful_standing" then
    "Properly establishes standing as a living being with inherent rights"
  else if category = "authority_challenges" then
    "Appropriately challenges presumed authority and jurisdiction"
  else if category = "constitutional_assertions" then
    "Invokes constitutional protections and guarantees"
  else if category = "commercial_awareness" then
    "Demonstrates understanding of commercial vs. lawful distinctions"
  else if category = "remedy_focused" then
    "Focuses on lawful remedy rather than punishment or penalties"
  else "Demonstrates sovereign awareness and understanding"

/-- One servile-language flag. -/
structure ServileFlag where
  category : String
  pattern : String
  matched : Str
  position : Nat × Nat
  severity : ℚ
  suggestion : String

/-- One sovereign-language indicator. -/
structure SovereignIndicator where
  category : String
  pattern : String
  matched : Str
  position : Nat × Nat
  strength : ℚ
  explanation : String

/-- Source `_detect_servile_language`. -/
def detectServileLanguage (text : Str) : List ServileFlag :=
  servilePatterns.foldl (fun acc cat =>
    acc ++ cat.2.foldl (fun acc2 pat =>
      acc2 ++ (reFindIter true pat text).map (fun m =>
        { category := cat.1, pattern := pat, matched := sliceStr text m.start m.stop,
          position := (m.start, m.stop), severity := getServileSeverity cat.1,
          suggestion := getServileSuggestion cat.1 })) []) []

/-- Source `_detect_sovereign_language`. -/
def detectSovereignLanguage (text : Str) : List SovereignIndicator :=
  sovereignPatterns.foldl (fun acc cat =>
    acc ++ cat.2.foldl (fun acc2 pat =>
      acc2 ++ (reFindIter true pat text).map (fun m =>
        { category := cat.1, pattern := pat, matched := sliceStr text m.start m.stop,
          position := (m.start, m.stop), strength := getSovereignStrength cat.1,
          explanation := getSovereignExplanation cat.1 })) []) []

/-- The remedy-alignment record of `_analyze_remedy_alignment`. -/
structure RemedyAlignment where
  score : ℚ
  lawful_indicators : List Str
  unlawful_indicators : List Str
  analysis : String

/-- Source `_get_remedy_analysis`. -/
def getRemedyAnalysis (score : ℚ) (lawful unlawful : Nat) : String :=
  if score ≥ 4/5 then
    "Strong lawful remedy focus (" ++ toString lawful ++ " lawful indicators, "
      ++ toString unlawful ++ " unlawful)"
  else if score ≥ 3/5 then
    "Good remedy alignment (" ++ toString lawful ++ " lawful indicators, "
      ++ toString unlawful ++ " unlawful)"
  else if score ≥ 2/5 then
    "Mixed remedy approach (" ++ toString lawful ++ " lawful indicators, "
      ++ toString unlawful ++ " unlawful)"
  else
    "Concerning unlawful remedy focus (" ++ toString lawful ++ " lawful indicators, "
      ++ toString unlawful ++ " unlawful)"

/-- Source `_analyze_remedy_alignment`: the score is the share of lawful matches
among all remedy matches, neutral `0.5` when there are none. -/
def analyzeRemedyAlignment (text : Str) : RemedyAlignment :=
  let lawful := lawfulRemedyPatterns.foldl
    (fun acc p => acc ++ (reFindIter true p text).map (fun m => sliceStr text m.start m.stop)) []
  let unlawful := unlawfulRemedyPatterns.foldl
    (fun acc p => acc ++ (reFindIter true p text).map (fun m => sliceStr text m.start m.stop)) []
  let score : ℚ :=
    if lawful.length + unlawful.length = 0 then 1/2
    else (lawful.length : ℚ) / ((lawful.length : ℚ) + (unlawful.length : ℚ))
  { score := score, lawful_indicators := lawful, unlawful_indicators := unlawful,
    analysis := getRemedyAnalysis score lawful.length unlawful.length }

/-- Source `_calculate_autonomy_score`: self-determination matches count 1,
non-consent matches 0.8, dependency matches are doubled in the denominator;
neutral `0.5` with no relevant matches. -/
def calculateAutonomyScore (text : Str) : ℚ :=
  let selfDet : Nat := ((autonomyPatterns.lookup "self_determination").getD []).foldl
    (fun n p => n + reCountMatches true p text) 0
  let nonCon : Nat := ((autonomyPatterns.lookup "non_consent").getD []).foldl
    (fun n p => n + reCountMatches true p text) 0
  let autonomyMatches : ℚ := (selfDet : ℚ) + (nonCon : ℚ) * (4/5)
  let depMatches : Nat := ((servilePatterns.lookup "dependency_language").getD []).foldl
    (fun n p => n + reCountMatches true p text) 0
  if autonomyMatches + (depMatches : ℚ) = 0 then 1/2
  else min 1 (autonomyMatches / (autonomyMatches + (depMatches : ℚ) * 2))

/-- Source `_calculate_language_score`: neutral `0.5` plus a density-normalised
sovereign bonus minus a density-normalised servile penalty, clamped to
`[0, 1]`. -/
def calculateLanguageScore (flags : List ServileFlag) (indicators : List SovereignIndicator)
    (textLength : Nat) : ℚ :=
  let norm : ℚ := max ((textLength : ℚ) / 100) 1
  let servilePenalty := (flags.map (·.severity)).sum / norm
  let sovereignBonus := (indicators.map (·.strength)).sum / norm
  max 0 (min 1 (1/2 - servilePenalty + sovereignBonus))

/-- Source `_generate_improvement_suggestions`.  The source iterates a Python
`set` of flag categories whose order is unspecified; here they are taken in
first-appearance order of the flags. -/
def generateImprovementSuggestions (flags : List ServileFlag)
    (indicators : List SovereignIndicator) (remedyAl : RemedyAlignment)
    (autonomyScore : ℚ) : List String :=
  let categories := (flags.map (·.category)).dedup
  let fromFlags := categories.foldl (fun acc c =>
    if c = "submission_language" then
      acc ++ ["Replace submissive phrases with assertive statements of rights and standing"]
    else if c = "dependency_language" then
      acc ++ ["Assert your inherent authority rather than seeking permission"]
    else if c = "victim_language" then
      acc ++ ["Focus on lawful remedy and rights rather than personal circumstances"]
    else if c = "corporate_fiction_acceptance" then
      acc ++ ["Clarify your standing as a living being, not a corporate fiction"]
    else acc) []
  let s1 := fromFlags ++
    (if indicators.length < 3 then
      ["Include more sovereign language patterns (authority challenges, constitutional assertions)"]
     else [])
  let s2 := s1 ++
    (if remedyAl.score < 3/5 then
      ["Focus on lawful remedies (restitution, specific performance) rather than punitive measures"]
     else [])
  let s3 := s2 ++
    (if autonomyScore < 3/5 then
      ["Emphasize self-determination and autonomous decision-making"]
     else [])
  let s4 :=
    if s3.isEmpty then
      ["Consider incorporating more sovereign principles and lawful remedy focus"]
    else s3
  s4.take 5

/-- Source `_determine_sovereignty_level`. -/
def determineSovereigntyLevel (score : ℚ) : String :=
  if score ≥ 3/4 then "Sovereign"
  else if score ≥ 1/2 then "Transitional"
  else "Servile"

/-- The metrics record returned by `score_text`.  The empty-text branch's
`remedy_alignment = {}` is modelled as `none`. -/
structure SovereigntyMetrics where
  overall_score : ℚ
  language_score : ℚ
  remedy_score : ℚ
  autonomy_score : ℚ
  servile_flags : List ServileFlag
  sovereign_indicators : List SovereignIndicator
  remedy_alignment : Option RemedyAlignment
  improvement_suggestions : List String
  sovereignty_level : String

/-- Python's `not text or not text.strip()` guard of `score_text`. -/
def isBlank (text : Str) : Bool := (pyStrip text).isEmpty

/-- The non-blank branch of `score_text`. -/
def scoreTextNonBlank (text : Str) : SovereigntyMetrics :=
  let textLower := lowerStr text
  let flags := detectServileLanguage textLower
  let indicators := detectSovereignLanguage textLower
  let remedyAl := analyzeRemedyAlignment textLower
  let autonomy := calculateAutonomyScore textLower
  let language := calculateLanguageScore flags indicators text.length
  let remedy := remedyAl.score
  let overall := language * (2/5) + remedy * (3/10) + autonomy * (3/10)
  { overall_score := overall, language_score := language, remedy_score := remedy,
    autonomy_score := autonomy, servile_flags := flags,
    sovereign_indicators := indicators, remedy_alignment := some remedyAl,
    improvement_suggestions :=
      generateImprovementSuggestions flags indicators remedyAl autonomy,
    sovereignty_level := determineSovereigntyLevel overall }

/-- Source `score_text`. -/
def scoreText (text : Str) : SovereigntyMetrics :=
  if isBlank text then
    { overall_score := 1/2, language_score := 1/2, remedy_score := 1/2,
      autonomy_score := 1/2, servile_flags := [], sovereign_indicators := [],
      remedy_alignment := none,
      improvement_suggestions := ["No text provided for analysis"],
      sovereignty_level := "Unknown" }
  else
    scoreTextNonBlank text

/-! ### JARVIS contradiction detection (`agents/JARVIS/jarvis_agent.py`) -/

/-- One contradiction record of `detect_contradictions`. -/
structure JContradiction where
  type : String
  clause : Str
  description : String

/-- The `opposites` table of `detect_clause_contradiction`. -/
def jarvisOpposites : List (List Str × List Str) :=
  [([str "required", str "mandatory", str "shall", str "must"],
    [str "optional", str "may", str "not required"]),
   ([str "permitted", str "allowed", str "authorized"],
    [str "prohibited", str "forbidden", str "not allowed"]),
   ([str "include", str "includes"],
    [str "exclude", str "excludes", str "does not include"]),
   ([str "before", str "prior to"],
    [str "after", str "following", str "subsequent to"])]

/-- Source `detect_clause_contradiction`: keyword-set opposition in either
direction. -/
def detectClauseContradiction (c1 c2 : Str) : Bool :=
  let l1 := lowerStr c1
  let l2 := lowerStr c2
  jarvisOpposites.any (fun p =>
    (p.1.any (fun t => isSubstr t l1) && p.2.any (fun t => isSubstr t l2)) ||
    (p.1.any (fun t => isSubstr t l2) && p.2.any (fun t => isSubstr t l1)))

/-- All index pairs `i < j` of a list, in the nested-loop order of the
source. -/
def enumPairsAux {α : Type} : List (Nat × α) → List ((Nat × α) × (Nat × α))
  | [] => []
  | x :: rest => rest.map (fun y => (x, y)) ++ enumPairsAux rest

/-- Source `detect_contradictions` from the JARVIS agent: three intra-clause
pattern checks followed by the pairwise cross-clause check. -/
def detectContradictions (clauses : List Str) : List JContradiction :=
  let p1 := (clauses.filter (fun c =>
      isSubstr (str "notwithstanding") (lowerStr c) &&
      isSubstr (str "subject to") (lowerStr c))).map (fun c =>
    ⟨"notwithstanding_subject_to", c,
      "Clause contains both \"notwithstanding\" and \"subject to\" which may create conflicting obligations"⟩)
  let p2 := (clauses.filter (fun c =>
      isSubstr (str "shall") (lowerStr c) &&
      isSubstr (str "may") (lowerStr c))).map (fun c =>
    ⟨"shall_may_conflict", c,
      "Clause mixes mandatory (\"shall\") and permissive (\"may\") language"⟩)
  let p3 := (clauses.filter (fun c =>
      ([str "prohibited", str "forbidden", str "not permitted"].any
        (fun w => isSubstr w (lowerStr c))) &&
      ([str "permitted", str "allowed", str "authorized"].any
        (fun w => isSubstr w (lowerStr c))))).map (fun c =>
    ⟨"prohibition_permission_conflict", c,
      "Clause contains conflicting prohibition and permission language"⟩)
  let p4 := (enumPairsAux clauses.enum).filterMap (fun pr =>
    if detectClauseContradiction pr.1.2 pr.2.2 then
      some ⟨"cross_clause_contradiction",
        str ("Clause " ++ toString (pr.1.1 + 1) ++ ": ") ++ pr.1.2 ++
          str (" | Clause " ++ toString (pr.2.1 + 1) ++ ": ") ++ pr.2.2,
        "These clauses appear to contradict each other"⟩
    else none)
  p1 ++ p2 ++ p3 ++ p4

/-! ### NLP-processor contradiction detection (`modules/nlp_processor.py`)

We model the pattern-based phase; the semantic phase
(`_detect_semantic_contradictions`) runs a spaCy similarity model and only
appends further pairs. -/

/-- One contradiction pair of `detect_contradictions`. -/
structure ContradictionPair where
  statement1 : Str
  statement2 : Str
  confidence : ℚ
  explanation : Str
  location1 : Nat × Nat
  location2 : Nat × Nat

/-- Source `_load_contradiction_patterns`, transcribed verbatim. -/
def contradictionPatternPairs : List (String × String) :=
  [("\\b(shall|must|will|required?)\\b",
    "\\b(shall not|must not|will not|not required|prohibited|forbidden)\\b"),
   ("\\b(mandatory|compulsory|obligatory)\\b",
    "\\b(optional|voluntary|discretionary)\\b"),
   ("\\b(always|invariably|without exception)\\b",
    "\\b(never|sometimes|may|might|could)\\b"),
   ("\\b(all|every|each)\\b", "\\b(none|no|not any)\\b"),
   ("\\b(include[sd]?|contain[sd]?)\\b", "\\b(exclude[sd]?|omit[sd]?|not include)\\b"),
   ("\\b(permit[sd]?|allow[sd]?|authorize[sd]?)\\b",
    "\\b(prohibit[sd]?|forbid[sd]?|ban[sd]?)\\b"),
   ("\\b(before|prior to|preceding)\\b", "\\b(after|following|subsequent to)\\b"),
   ("\\b(immediate|instant|forthwith)\\b", "\\b(delayed|postponed|deferred)\\b"),
   ("\\b(maximum|at most|no more than)\\b", "\\b(minimum|at least|no less than)\\b"),
   ("\\b(increase|raise|elevate)\\b", "\\b(decrease|lower|reduce)\\b")]

/-- The ASCII apostrophe, used by the source's f-string explanations. -/
def quoteChar : Str := [Char.ofNat 39]

/-- The pattern-pair loop of `_check_sentence_contradiction`. -/
def checkSentenceContradictionAux (s1 s2 full : Str) :
    List (String × String) → Option ContradictionPair
  | [] => none
  | (p1, p2) :: rest =>
    match reSearch true p1 s1, reSearch true p2 s2 with
    | some m1, some m2 =>
      (match strFind s1 full, strFind s2 full with
       | some pos1, some pos2 =>
         some { statement1 := s1, statement2 := s2, confidence := 4/5,
                explanation := str "Contradictory patterns detected: " ++ quoteChar ++
                  sliceStr s1 m1.start m1.stop ++ quoteChar ++ str " vs " ++ quoteChar ++
                  sliceStr s2 m2.start m2.stop ++ quoteChar,
                location1 := (pos1, pos1 + s1.length),
                location2 := (pos2, pos2 + s2.length) }
       | _, _ => checkSentenceContradictionAux s1 s2 full rest)
    | _, _ => checkSentenceContradictionAux s1 s2 full rest

/-- Source `_check_sentence_contradiction`: the first pattern pair matching the two
sentences (whose positions are found in the full text) yields a pair with
confidence `0.8`. -/
def checkSentenceContradiction (s1 s2 full : Str) : Option ContradictionPair :=
  checkSentenceContradictionAux s1 s2 full contradictionPatternPairs

/-- The sentence splitter of `_split_into_sentences` when no spaCy pipeline
is available: `re.split(r'[.!?]+', text)`, then strip and drop empties
(fuel-bounded structural recursion, never exhausted). -/
def splitSentencesAux (fuel : Nat) (s acc : Str) : List Str :=
  match fuel with
  | 0 => [acc.reverse ++ s]
  | fuel + 1 =>
    match s with
    | [] => [acc.reverse]
    | c :: rest =>
      if isTermChar c then
        acc.reverse :: splitSentencesAux fuel (rest.dropWhile isTermChar) []
      else
        splitSentencesAux fuel rest (c :: acc)

/-- Source `_split_into_sentences` (fallback path). -/
def splitIntoSentences (text : Str) : List Str :=
  ((splitSentencesAux (text.length + 1) text []).map pyStrip).filter (fun s => !s.isEmpty)

/-- The pattern-based phase of `detect_contradictions`: the pairwise loop
over sentences in order `i < j`. -/
def detectContradictionsNLP (text : Str) : List ContradictionPair :=
  let sentences := splitIntoSentences text
  (enumPairsAux sentences.enum).filterMap
    (fun pr => checkSentenceContradiction pr.1.2 pr.2.2 text)

/-! ### Provenance ledger (`modules/provenance_logger.py`)

`entry_hash` is a truncated SHA-256 of the JSON serialisation of all fields
except `entry_hash` itself; it is modelled as an arbitrary deterministic
function `H` of those fields (`EntryCore`).  `uuid4` entry ids and
`datetime.now` timestamps are external inputs of `log_action` and appear as
explicit arguments. -/

/-- All fields of a `ProvenanceEntry` except the integrity hash — exactly
the data `_generate_entry_hash` hashes. -/
structure EntryCore where
  entry_id : String
  timestamp : String
  session_id : String
  agent_name : String
  human_operator : Option String
  system_version : String
  action_type : String
  action_description : String
  input_hash : Option String
  output_hash : Option String
  document_path : Option String
  legal_context : Option String
  sovereignty_score : Option ℚ
  confidence_level : Option ℚ
  parent_entry_id : Option String
  related_entries : List String

/-- A provenance entry: the hashed core plus the stored integrity hash. -/
structure ProvenanceEntry where
  core : EntryCore
  entry_hash : Option String

/-- The keyword arguments of `log_action`, with the source's defaults. -/
structure ActionInput where
  action_type : String
  action_description : String
  agent_name : String := "System"
  input_data : Option String := none
  output_data : Option String := none
  document_path : Option String := none
  legal_context : Option String := none
  sovereignty_score : Option ℚ := none
  confidence_level : Option ℚ := none
  human_operator : Option String := none
  parent_entry_id : Option String := none
  related_entries : Option (List String) := none

/-- The entry core built by `log_action` (`cH` models `_generate_hash`
applied to input/output data). -/
def mkCore (sid : String) (cH : String → String) (a : ActionInput)
    (eid ts : String) : EntryCore :=
  { entry_id := eid, timestamp := ts, session_id := sid,
    agent_name := a.agent_name, human_operator := a.human_operator,
    system_version := "VeroBrix v2.0",
    action_type := a.action_type, action_description := a.action_description,
    input_hash := a.input_data.map cH,
    output_hash := a.output_data.map cH,
    document_path := a.document_path, legal_context := a.legal_context,
    sovereignty_score := a.sovereignty_score, confidence_level := a.confidence_level,
    parent_entry_id := a.parent_entry_id,
    related_entries := a.related_entries.getD [] }

/-- Source `log_action`: build the entry, stamp it with `entry_hash = H core`,
append it to the entry list, and return its id. -/
def logAction (H : EntryCore → String) (cH : String → String) (sid : String)
    (entries : List ProvenanceEntry) (a : ActionInput) (eid ts : String) :
    String × List ProvenanceEntry :=
  let core := mkCore sid cH a eid ts
  (eid, entries ++ [⟨core, some (H core)⟩])

/-- The result record of `verify_integrity`.  A corrupted entry is reported
as `(entry_id, stored_hash, calculated_hash)`. -/
structure VerifyResult where
  total_entries : Nat
  verified_entries : Nat
  corrupted_entries : List (String × String × String)
  missing_hashes : List String
  integrity_percentage : ℚ

/-- One step of the `verify_integrity` loop over `(verified, corrupted,
missing)` accumulators. -/
def verifyStep (H : EntryCore → String)
    (r : Nat × List (String × String × String) × List String)
    (e : ProvenanceEntry) : Nat × List (String × String × String) × List String :=
  match e.entry_hash with
  | none => (r.1, r.2.1, r.2.2 ++ [e.core.entry_id])
  | some h =>
    if H e.core = h then (r.1 + 1, r.2.1, r.2.2)
    else (r.1, r.2.1 ++ [(e.core.entry_id, h, H e.core)], r.2.2)

/-- Source `verify_integrity`: recompute each entry's hash and classify it as
verified, corrupted or missing; the percentage is
`verified / total * 100` (or `100` for an empty ledger). -/
def verifyIntegrity (H : EntryCore → String) (entries : List ProvenanceEntry) :
    VerifyResult :=
  let res := entries.foldl (verifyStep H) (0, [], [])
  { total_entries := entries.length, verified_entries := res.1,
    corrupted_entries := res.2.1, missing_hashes := res.2.2,
    integrity_percentage :=
      if entries.length > 0 then (res.1 : ℚ) / (entries.length : ℚ) * 100 else 100 }

/-- A fresh ledger followed by a sequence of `log_action` calls, each with
its externally supplied entry id and timestamp. -/
def replayLog (H : EntryCore → String) (cH : String → String) (sid : String)
    (acts : List (ActionInput × String × String)) : List ProvenanceEntry :=
  acts.foldl (fun es a => (logAction H cH sid es a.1 a.2.1 a.2.2).2) []

/-- External mutation of the stored ledger: overwrite the
`action_description` of the `i`-th entry without recomputing its hash. -/
def tamperDescription (entries : List ProvenanceEntry) (i : Nat) (d : String) :
    List ProvenanceEntry :=
  match entries, i with
  | [], _ => []
  | e :: t, 0 => ⟨{ e.core with action_description := d }, e.entry_hash⟩ :: t
  | e :: t, n + 1 => e :: tamperDescription t n d

/-- Source `track_operation`: log an `operation_start` entry, run the body, then
log exactly one linked outcome entry — `operation_complete` with confidence
`1.0` on success, `operation_error` with confidence `0.0` on failure — and
propagate the body's outcome.  The formatted wall-clock duration of the
source's f-strings is the opaque input `durStr`; `extras` are the `**kwargs`
forwarded to the start entry. -/
def trackOperation {α : Type} (H : EntryCore → String) (cH : String → String)
    (sid : String) (entries : List ProvenanceEntry) (opName agentName : String)
    (extras : ActionInput) (body : Except String α) (eid1 ts1 eid2 ts2 durStr : String) :
    Except String α × List ProvenanceEntry :=
  let r1 := logAction H cH sid entries
    { extras with
      action_type := "operation_start"
      action_description := "Started operation: " ++ opName
      agent_name := agentName }
    eid1 ts1
  match body with
  | .ok a =>
    let r2 := logAction H cH sid r1.2
      { action_type := "operation_complete",
        action_description :=
          "Completed operation: " ++ opName ++ " (duration: " ++ durStr ++ "s)",
        agent_name := agentName, parent_entry_id := some r1.1,
        confidence_level := some 1 }
      eid2 ts2
    (.ok a, r2.2)
  | .error e =>
    let r2 := logAction H cH sid r1.2
      { action_type := "operation_error",
        action_description :=
          "Failed operation: " ++ opName ++ " - " ++ e ++ " (duration: " ++ durStr ++ "s)",
        agent_name := agentName, parent_entry_id := some r1.1,
        confidence_level := some 0 }
      eid2 ts2
    (.error e, r2.2)

/-! ### General lemmas about the string primitives -/

theorem isSubstr_nil (s : Str) : isSubstr [] s = true := by
  rw [isSubstr, List.any_eq_true]
  refine ⟨s, (List.mem_tails _ _).mpr (List.suffix_refl s), ?_⟩
  cases s <;> rfl

theorem isSubstr_iff_mid {pat s : Str} : isSubstr pat s = true ↔ pat <:+: s := by
  rw [isSubstr, List.any_eq_true]
  constructor
  · rintro ⟨t, ht, hp⟩
    rw [List.mem_tails] at ht
    exact List.infix_iff_prefix_suffix.mpr ⟨t, List.isPrefixOf_iff_prefix.mp hp, ht⟩
  · intro h
    obtain ⟨t, hp, hs⟩ := List.infix_iff_prefix_suffix.mp h
    exact ⟨t, (List.mem_tails _ _).mpr hs, List.isPrefixOf_iff_prefix.mpr hp⟩

theorem isSubstr_false_of_mid {pat s t : Str} (h : isSubstr pat s = false)
    (ht : t <:+: s) : isSubstr pat t = false := by
  cases hx : isSubstr pat t
  · rfl
  · have : isSubstr pat s = true :=
      isSubstr_iff_mid.mpr ((isSubstr_iff_mid.mp hx).trans ht)
    rw [h] at this
    cases this

theorem isSubstr_false_of_not_mem {pat s : Str} {c : Char} (hc : c ∈ pat) (hs : c ∉ s) :
    isSubstr pat s = false := by
  cases hx : isSubstr pat s
  · rfl
  · exact ((hs ((isSubstr_iff_mid.mp hx).subset hc))).elim

theorem pyReplaceAux_succ (pat rep : Str) (n : Nat) (s : Str) :
    pyReplaceAux pat rep (n + 1) s =
      if !pat.isEmpty && pat.isPrefixOf s then
        rep ++ pyReplaceAux pat rep n (s.drop pat.length)
      else
        match s with
        | [] => []
        | c :: t => c :: pyReplaceAux pat rep n t := rfl

theorem pyReplaceAux_of_not_substr {pat rep : Str} :
    ∀ (fuel : Nat) (s : Str), isSubstr pat s = false → pyReplaceAux pat rep fuel s = s := by
  intro fuel
  induction fuel with
  | zero => intro s _; rfl
  | succ n ih =>
    intro s hsub
    have hpre : pat.isPrefixOf s = false := by
      cases hx : pat.isPrefixOf s
      · rfl
      · have : isSubstr pat s = true :=
          isSubstr_iff_mid.mpr (List.isPrefixOf_iff_prefix.mp hx).isInfix
        rw [this] at hsub
        cases hsub
    rw [pyReplaceAux_succ, if_neg (by simp [hpre])]
    cases s with
    | nil => rfl
    | cons c t =>
      have hst : isSubstr pat t = false :=
        isSubstr_false_of_mid hsub (List.suffix_cons c t).isInfix
      show c :: pyReplaceAux pat rep n t = c :: t
      rw [ih t hst]

theorem pyReplace_of_not_substr {pat rep s : Str} (h : isSubstr pat s = false) :
    pyReplace pat rep s = s :=
  pyReplaceAux_of_not_substr _ s h

theorem splitTermWsAux_of_no_term :
    ∀ (fuel : Nat) (s acc : Str), (∀ c ∈ s, isTermChar c = false) →
      splitTermWsAux fuel s acc = [acc.reverse ++ s] := by
  intro fuel
  induction fuel with
  | zero => intro s acc _; rfl
  | succ n ih =>
    intro s acc h
    cases s with
    | nil => simp [splitTermWsAux]
    | cons c rest =>
      show splitTermWsAux (n + 1) (c :: rest) acc = _
      rw [splitTermWsAux]
      rw [if_neg (by simp [h c (List.mem_cons_self c rest)])]
      rw [ih rest (c :: acc) (fun x hx => h x (List.mem_cons_of_mem c hx))]
      simp

theorem dropWhile_head_false {p : Char → Bool} {l : List Char} {c : Char} {r : List Char}
    (h : l.dropWhile p = c :: r) : p c = false := by
  induction l with
  | nil => simp at h
  | cons a t ih =>
    rw [List.dropWhile_cons] at h
    by_cases hp : p a
    · rw [if_pos hp] at h
      exact ih h
    · rw [if_neg hp] at h
      cases h
      exact Bool.eq_false_iff.mpr hp

theorem dropWhile_pyStrip (s : Str) : (pyStrip s).dropWhile isWsChar = pyStrip s := by
  rcases ht : pyStrip s with _ | ⟨c, r⟩
  · rfl
  · have hpre : pyStrip s <+: s.dropWhile isWsChar := List.rdropWhile_prefix _ _
    rw [ht] at hpre
    obtain ⟨u, hu⟩ := hpre
    have hc : isWsChar c = false :=
      dropWhile_head_false (show s.dropWhile isWsChar = c :: (r ++ u) by rw [← hu]; rfl)
    rw [List.dropWhile_cons, if_neg (by simp [hc])]

theorem pyStrip_idem (s : Str) : pyStrip (pyStrip s) = pyStrip s := by
  have h1 : pyStrip (pyStrip s) = List.rdropWhile isWsChar ((pyStrip s).dropWhile isWsChar) := rfl
  rw [h1, dropWhile_pyStrip]
  show List.rdropWhile isWsChar (List.rdropWhile isWsChar (s.dropWhile isWsChar)) = pyStrip s
  rw [List.rdropWhile_idempotent]
  rfl

theorem pyStrip_mid (s : Str) : pyStrip s <:+: s :=
  (List.rdropWhile_prefix _ _).isInfix.trans (List.dropWhile_suffix _).isInfix

theorem foldl_pyReplace_id :
    ∀ (l : List (Nat × Str)) (t : Str), (∀ p ∈ l, isSubstr p.2 t = false) →
      l.foldl (fun acc p => pyReplace p.2 (placeholder p.1) acc) t = t := by
  intro l
  induction l with
  | nil => intro t _; rfl
  | cons a r ih =>
    intro t h
    rw [List.foldl_cons, pyReplace_of_not_substr (h a (List.mem_cons_self a r))]
    exact ih t (fun p hp => h p (List.mem_cons_of_mem a hp))

theorem foldl_restore_id :
    ∀ (l : List (Nat × Str)) (t : Str), (∀ p ∈ l, isSubstr (placeholder p.1) t = false) →
      l.foldl (fun cs p => cs.map (pyReplace (placeholder p.1) p.2)) [t] = [t] := by
  intro l
  induction l with
  | nil => intro t _; rfl
  | cons a r ih =>
    intro t h
    rw [List.foldl_cons]
    have : [t].map (pyReplace (placeholder a.1) a.2) = [t] := by
      rw [List.map_singleton, pyReplace_of_not_substr (h a (List.mem_cons_self a r))]
    rw [this]
    exact ih t (fun p hp => h p (List.mem_cons_of_mem a hp))

/-- C9 (amended): on input whose trimmed text is nonempty, that contains no
sentence-terminating punctuation (`.`, `!`, `?`) and no internal
`__ABBREV_i__` placeholder token, `extract_clauses` returns exactly one
clause, equal to the input with surrounding whitespace trimmed. -/
theorem c9_segmenter_no_punct (text : Str)
    (hne : pyStrip text ≠ [])
    (hterm : ∀ c ∈ text, isTermChar c = false)
    (hph : ∀ i, i < jarvisAbbrevs.length → isSubstr (placeholder i) text = false) :
    extractClauses text = [pyStrip text] := by
  have htinf := pyStrip_mid text
  have htermt : ∀ c ∈ pyStrip text, isTermChar c = false :=
    fun c hc => hterm c (htinf.subset hc)
  have hdot : ('.' : Char) ∉ pyStrip text := by
    intro hc
    have := htermt '.' hc
    simp [isTermChar] at this
  have h1 : jarvisAbbrevs.enum.foldl
      (fun acc p => pyReplace p.2 (placeholder p.1) acc) (pyStrip text) = pyStrip text := by
    have hdotmem : ∀ p ∈ jarvisAbbrevs.enum, ('.' : Char) ∈ p.2 := by decide
    exact foldl_pyReplace_id _ _
      (fun p hp => isSubstr_false_of_not_mem (hdotmem p hp) hdot)
  have h2 : splitTermWs (pyStrip text) = [pyStrip text] := by
    rw [splitTermWs, splitTermWsAux_of_no_term _ _ _ htermt]
    simp
  have h3 : jarvisAbbrevs.enum.foldl
      (fun cs p => cs.map (pyReplace (placeholder p.1) p.2)) [pyStrip text] = [pyStrip text] :=
    foldl_restore_id _ _ (fun p hp =>
      isSubstr_false_of_mid (hph p.1 (List.fst_lt_of_mem_enum hp)) htinf)
  simp only [extractClauses]
  rw [h1, h2, h3, List.map_singleton, pyStrip_idem]
  have hfe : (pyStrip text).isEmpty = false := by
    cases hx : pyStrip text
    · exact absurd hx hne
    · rfl
  simp [List.filter, hfe]

/-- C9 counterexample: on the empty input the segmenter returns no clause at
all, not one clause equal to the trimmed input. -/
theorem c9_segmenter_empty_ce : extractClauses (str "") ≠ [pyStrip (str "")] := by decide

/-- C9 witness: the amended statement applied to a concrete input with no
terminal punctuation. -/
theorem c9_segmenter_no_punct_witness :
    extractClauses (str "no punctuation at all") = [pyStrip (str "no punctuation at all")] :=
  c9_segmenter_no_punct _ (by decide) (by decide) (by decide)

/-! ### Sovereignty scorer: C2, C5, C7 -/

set_option maxHeartbeats 4000000 in
theorem scoreTextNonBlank_language (text : Str) :
    (scoreTextNonBlank text).language_score =
      calculateLanguageScore (detectServileLanguage (lowerStr text))
        (detectSovereignLanguage (lowerStr text)) text.length := rfl

set_option maxHeartbeats 4000000 in
theorem scoreTextNonBlank_remedy (text : Str) :
    (scoreTextNonBlank text).remedy_score = (analyzeRemedyAlignment (lowerStr text)).score := rfl

set_option maxHeartbeats 4000000 in
theorem scoreTextNonBlank_autonomy (text : Str) :
    (scoreTextNonBlank text).autonomy_score = calculateAutonomyScore (lowerStr text) := rfl

set_option maxHeartbeats 4000000 in
theorem scoreTextNonBlank_overall (text : Str) :
    (scoreTextNonBlank text).overall_score =
      (scoreTextNonBlank text).language_score * (2/5)
        + (scoreTextNonBlank text).remedy_score * (3/10)
        + (scoreTextNonBlank text).autonomy_score * (3/10) := rfl

set_option maxHeartbeats 4000000 in
theorem scoreTextNonBlank_level (text : Str) :
    (scoreTextNonBlank text).sovereignty_level =
      determineSovereigntyLevel ((scoreTextNonBlank text).overall_score) := rfl

theorem scoreText_eq_nonblank (text : Str) (h : isBlank text = false) :
    scoreText text = scoreTextNonBlank text := by
  unfold scoreText
  rw [if_neg (by simp [h])]

theorem determineSovereigntyLevel_mem (q : ℚ) :
    determineSovereigntyLevel q ∈ (["Sovereign", "Transitional", "Servile"] : List String) := by
  unfold determineSovereigntyLevel
  split
  · simp
  · split <;> simp

theorem calculateLanguageScore_bounds (flags : List ServileFlag)
    (indicators : List SovereignIndicator) (n : Nat) :
    0 ≤ calculateLanguageScore flags indicators n ∧ calculateLanguageScore flags indicators n ≤ 1 := by
  unfold calculateLanguageScore
  constructor
  · exact le_max_left 0 _
  · exact max_le (by norm_num) (min_le_left 1 _)

set_option maxHeartbeats 4000000 in
theorem analyzeRemedyAlignment_score_bounds (text : Str) :
    0 ≤ (analyzeRemedyAlignment text).score ∧ (analyzeRemedyAlignment text).score ≤ 1 := by
  unfold analyzeRemedyAlignment
  set L := (lawfulRemedyPatterns.foldl
    (fun acc p => acc ++ (reFindIter true p text).map
      (fun m => sliceStr text m.start m.stop)) []).length with hL
  set U := (unlawfulRemedyPatterns.foldl
    (fun acc p => acc ++ (reFindIter true p text).map
      (fun m => sliceStr text m.start m.stop)) []).length with hU
  by_cases h0 : L + U = 0
  · simp only [h0, if_pos rfl]
    norm_num
  · simp only [if_neg h0]
    have hpos : (0 : ℚ) < (L : ℚ) + (U : ℚ) := by
      have : 0 < L + U := Nat.pos_of_ne_zero h0
      exact_mod_cast this
    constructor
    · positivity
    · rw [div_le_one hpos]
      have hU0 : (0 : ℚ) ≤ (U : ℚ) := by positivity
      linarith

set_option maxHeartbeats 4000000 in
theorem calculateAutonomyScore_bounds (text : Str) :
    0 ≤ calculateAutonomyScore text ∧ calculateAutonomyScore text ≤ 1 := by
  unfold calculateAutonomyScore
  set s := (((autonomyPatterns.lookup "self_determination").getD []).foldl
    (fun n p => n + reCountMatches true p text) 0) with hs
  set n := (((autonomyPatterns.lookup "non_consent").getD []).foldl
    (fun n p => n + reCountMatches true p text) 0) with hn
  set d := (((servilePatterns.lookup "dependency_language").getD []).foldl
    (fun n p => n + reCountMatches true p text) 0) with hd
  have ha : (0 : ℚ) ≤ (s : ℚ) + (n : ℚ) * (4/5) := by positivity
  by_cases h0 : (s : ℚ) + (n : ℚ) * (4/5) + (d : ℚ) = 0
  · simp only [h0, if_pos rfl]
    norm_num
  · simp only [if_neg h0]
    have hd0 : (0 : ℚ) ≤ (d : ℚ) := by positivity
    have hden : (0 : ℚ) < (s : ℚ) + (n : ℚ) * (4/5) + (d : ℚ) * 2 := by
      rcases lt_or_eq_of_le ha with h | h
      · linarith
      · rcases lt_or_eq_of_le hd0 with h2 | h2
        · linarith
        · exfalso
          exact h0 (by linarith)
    constructor
    · exact le_min (by norm_num) (by positivity)
    · exact min_le_left 1 _

set_option maxHeartbeats 4000000 in
theorem scoreText_bounds_core (text : Str) :
    (0 ≤ (scoreText text).language_score ∧ (scoreText text).language_score ≤ 1) ∧
    (0 ≤ (scoreText text).remedy_score ∧ (scoreText text).remedy_score ≤ 1) ∧
    (0 ≤ (scoreText text).autonomy_score ∧ (scoreText text).autonomy_score ≤ 1) ∧
    (0 ≤ (scoreText text).overall_score ∧ (scoreText text).overall_score ≤ 1) := by
  by_cases hb : isBlank text
  · unfold scoreText
    rw [if_pos hb]
    norm_num
  · rw [scoreText_eq_nonblank text (by simp [hb])]
    have hl := calculateLanguageScore_bounds (detectServileLanguage (lowerStr text))
      (detectSovereignLanguage (lowerStr text)) text.length
    have hr := analyzeRemedyAlignment_score_bounds (lowerStr text)
    have ha := calculateAutonomyScore_bounds (lowerStr text)
    rw [← scoreTextNonBlank_language text] at hl
    rw [← scoreTextNonBlank_remedy text] at hr
    rw [← scoreTextNonBlank_autonomy text] at ha
    refine ⟨hl, hr, ha, ?_, ?_⟩
    · rw [scoreTextNonBlank_overall text]
      nlinarith [hl.1, hr.1, ha.1]
    · rw [scoreTextNonBlank_overall text]
      nlinarith [hl.2, hr.2, ha.2]

/-- C7: for every input text all four scores returned by `score_text` —
overall, language, remedy and autonomy — lie in the closed interval
`[0, 1]`. -/
theorem c7_scores_in_unit_interval (text : Str) :
    0 ≤ (scoreText text).overall_score ∧ (scoreText text).overall_score ≤ 1 ∧
    0 ≤ (scoreText text).language_score ∧ (scoreText text).language_score ≤ 1 ∧
    0 ≤ (scoreText text).remedy_score ∧ (scoreText text).remedy_score ≤ 1 ∧
    0 ≤ (scoreText text).autonomy_score ∧ (scoreText text).autonomy_score ≤ 1 := by
  obtain ⟨hl, hr, ha, ho⟩ := scoreText_bounds_core text
  exact ⟨ho.1, ho.2, hl.1, hl.2, hr.1, hr.2, ha.1, ha.2⟩

theorem scoreText_blank_eq (text : Str) (h : isBlank text = true) :
    scoreText text =
      { overall_score := 1/2, language_score := 1/2, remedy_score := 1/2,
        autonomy_score := 1/2, servile_flags := [], sovereign_indicators := [],
        remedy_alignment := none,
        improvement_suggestions := ["No text provided for analysis"],
        sovereignty_level := "Unknown" } := by
  unfold scoreText
  rw [if_pos h]

/-- C5: on empty or whitespace-only input, `score_text` returns the neutral
record — all four scores `0.5`, no flags, no indicators, exactly one
improvement suggestion noting that no text was provided — and, being a total
function of the text, never raises. -/
theorem c5_blank_text_neutral (text : Str) (h : isBlank text = true) :
    scoreText text =
      { overall_score := 1/2, language_score := 1/2, remedy_score := 1/2,
        autonomy_score := 1/2, servile_flags := [], sovereign_indicators := [],
        remedy_alignment := none,
        improvement_suggestions := ["No text provided for analysis"],
        sovereignty_level := "Unknown" } ∧
    (scoreText text).improvement_suggestions.length = 1 := by
  have heq := scoreText_blank_eq text h
  refine ⟨heq, ?_⟩
  rw [heq]
  rfl

/-- C5 witness: the neutral result on a whitespace-only input. -/
theorem c5_blank_text_neutral_witness :
    scoreText (str "  ") =
      { overall_score := 1/2, language_score := 1/2, remedy_score := 1/2,
        autonomy_score := 1/2, servile_flags := [], sovereign_indicators := [],
        remedy_alignment := none,
        improvement_suggestions := ["No text provided for analysis"],
        sovereignty_level := "Unknown" } ∧
    (scoreText (str "  ")).improvement_suggestions.length = 1 :=
  c5_blank_text_neutral (str "  ") (by decide)

/-- C2 counterexample: on the empty text `score_text` sets
`sovereignty_level` to `"Unknown"`, which is outside the claimed enum. -/
theorem c2_sovereignty_level_ce :
    (scoreText (str "")).sovereignty_level = "Unknown" ∧
    "Unknown" ∉ (["Sovereign", "Transitional", "Servile"] : List String) := by
  constructor
  · rw [scoreText_blank_eq (str "") (by decide)]
  · decide

/-- C2 (amended): for every text that is not empty or whitespace-only, the
sovereignty level is drawn from the enum and determined from the overall
score by the `0.75` / `0.5` thresholds; for blank text the level is the
out-of-enum string `"Unknown"`. -/
theorem c2_sovereignty_level (text : Str) (h : isBlank text = false) :
    (scoreText text).sovereignty_level =
      (if (scoreText text).overall_score ≥ 3/4 then "Sovereign"
       else if (scoreText text).overall_score ≥ 1/2 then "Transitional"
       else "Servile") ∧
    (scoreText text).sovereignty_level ∈ (["Sovereign", "Transitional", "Servile"] : List String) := by
  rw [scoreText_eq_nonblank text h, scoreTextNonBlank_level text]
  exact ⟨rfl, determineSovereigntyLevel_mem _⟩

/-- C2 witness: the amended statement applied at a concrete non-blank
text. -/
theorem c2_sovereignty_level_witness :
    (scoreText (str "x")).sovereignty_level =
      (if (scoreText (str "x")).overall_score ≥ 3/4 then "Sovereign"
       else if (scoreText (str "x")).overall_score ≥ 1/2 then "Transitional"
       else "Servile") ∧
    (scoreText (str "x")).sovereignty_level ∈
      (["Sovereign", "Transitional", "Servile"] : List String) :=
  c2_sovereignty_level (str "x") (by decide)

/-! ### Situation interpreter: C3 -/

/-- C3 counterexample: two calls of `interpret_situation` on the same text
and context made at different clock readings differ (in the `timestamp`
field), so the result is not a pure function of the input alone. -/
theorem c3_idempotence_ce :
    interpretSituation (str "traffic stop") none "2025-01-17T00:00:00" ≠
      interpretSituation (str "traffic stop") none "2025-01-17T00:00:01" := by
  intro h
  have h2 := congrArg Situation.timestamp h
  have h3 : ("2025-01-17T00:00:00" : String) = "2025-01-17T00:00:01" := h2
  exact absurd h3 (by decide)

/-- C3 (amended): `interpret_situation` is a pure function of the text, the
context and the clock reading; two calls at (possibly different) times agree
on every field except `timestamp`, which records the clock reading of the
call.  (`score_text` and the contradiction detectors read no clock at all in
the source, so their repetition is literal function application.) -/
theorem c3_purity_except_timestamp (text : Str) (ctx : Option (List (String × String)))
    (n1 n2 : String) :
    (interpretSituation text ctx n1).type = (interpretSituation text ctx n2).type ∧
    (interpretSituation text ctx n1).raw_input = (interpretSituation text ctx n2).raw_input ∧
    (interpretSituation text ctx n1).normalized_text
      = (interpretSituation text ctx n2).normalized_text ∧
    (interpretSituation text ctx n1).entities = (interpretSituation text ctx n2).entities ∧
    (interpretSituation text ctx n1).jurisdiction
      = (interpretSituation text ctx n2).jurisdiction ∧
    (interpretSituation text ctx n1).relationships
      = (interpretSituation text ctx n2).relationships ∧
    (interpretSituation text ctx n1).key_facts = (interpretSituation text ctx n2).key_facts ∧
    (interpretSituation text ctx n1).urgency = (interpretSituation text ctx n2).urgency ∧
    (interpretSituation text ctx n1).context = (interpretSituation text ctx n2).context ∧
    (interpretSituation text ctx n1).legal_framework
      = (interpretSituation text ctx n2).legal_framework ∧
    (interpretSituation text ctx n1).potential_issues
      = (interpretSituation text ctx n2).potential_issues ∧
    (interpretSituation text ctx n1).required_actions
      = (interpretSituation text ctx n2).required_actions ∧
    (interpretSituation text ctx n1).timestamp = n1 ∧
    (interpretSituation text ctx n2).timestamp = n2 :=
  ⟨rfl, rfl, rfl, rfl, rfl, rfl, rfl, rfl, rfl, rfl, rfl, rfl, rfl, rfl⟩

/-! ### Provenance ledger: C8 -/

/-- C8: under `track_operation` a start entry is logged first, then exactly
one outcome entry: on normal completion an `operation_complete` entry with
confidence `1.0` whose parent is the start entry's id, and on failure an
`operation_error` entry with confidence `0.0` linked to the start entry,
after which the failure propagates to the caller. -/
theorem c8_track_operation {α : Type} (H : EntryCore → String) (cH : String → String)
    (sid : String) (entries : List ProvenanceEntry) (opName agentName : String)
    (extras : ActionInput) (a : α) (e : String) (eid1 ts1 eid2 ts2 durStr : String) :
    ((trackOperation H cH sid entries opName agentName extras (Except.ok a)
        eid1 ts1 eid2 ts2 durStr).1 = Except.ok a ∧
      ∃ s c, (trackOperation H cH sid entries opName agentName extras (Except.ok a)
          eid1 ts1 eid2 ts2 durStr).2 = entries ++ [s, c] ∧
        s.core.action_type = "operation_start" ∧
        s.core.entry_id = eid1 ∧
        c.core.action_type = "operation_complete" ∧
        c.core.confidence_level = some 1 ∧
        c.core.parent_entry_id = some eid1) ∧
    ((trackOperation H cH sid entries opName agentName extras
        (Except.error e : Except String α) eid1 ts1 eid2 ts2 durStr).1 = Except.error e ∧
      ∃ s c, (trackOperation H cH sid entries opName agentName extras
          (Except.error e : Except String α) eid1 ts1 eid2 ts2 durStr).2 = entries ++ [s, c] ∧
        s.core.action_type = "operation_start" ∧
        s.core.entry_id = eid1 ∧
        c.core.action_type = "operation_error" ∧
        c.core.confidence_level = some 0 ∧
        c.core.parent_entry_id = some eid1) := by
  have happ : ∀ (l : List ProvenanceEntry) (x y : ProvenanceEntry),
      (l ++ [x]) ++ [y] = l ++ [x, y] := by
    intro l x y
    simp
  exact ⟨⟨rfl, _, _, happ entries _ _, rfl, rfl, rfl, rfl, rfl⟩,
    ⟨rfl, _, _, happ entries _ _, rfl, rfl, rfl, rfl, rfl⟩⟩

/-! ### Provenance ledger: C1 -/

theorem replay_stamped (H : EntryCore → String) (cH : String → String) (sid : String)
    (acts : List (ActionInput × String × String)) :
    ∀ e ∈ replayLog H cH sid acts, e.entry_hash = some (H e.core) := by
  suffices h : ∀ (init : List ProvenanceEntry),
      (∀ e ∈ init, e.entry_hash = some (H e.core)) →
      ∀ e ∈ acts.foldl (fun es a => (logAction H cH sid es a.1 a.2.1 a.2.2).2) init,
        e.entry_hash = some (H e.core) by
    exact h [] (by simp)
  induction acts with
  | nil =>
    intro init hinit e he
    exact hinit e he
  | cons a rest ih =>
    intro init hinit e he
    rw [List.foldl_cons] at he
    refine ih _ ?_ e he
    intro x hx
    simp only [logAction, List.mem_append, List.mem_singleton] at hx
    rcases hx with hx | hx
    · exact hinit x hx
    · rw [hx]

theorem replay_length (H : EntryCore → String) (cH : String → String) (sid : String)
    (acts : List (ActionInput × String × String)) :
    (replayLog H cH sid acts).length = acts.length := by
  suffices h : ∀ (init : List ProvenanceEntry),
      (acts.foldl (fun es a => (logAction H cH sid es a.1 a.2.1 a.2.2).2) init).length
        = init.length + acts.length by
    simpa using h []
  induction acts with
  | nil => intro init; simp
  | cons a rest ih =>
    intro init
    rw [List.foldl_cons, ih]
    simp only [logAction, List.length_append, List.length_cons, List.length_nil]
    omega

theorem verify_foldl_stamped (H : EntryCore → String) :
    ∀ (es : List ProvenanceEntry) (r : Nat × List (String × String × String) × List String),
      (∀ e ∈ es, e.entry_hash = some (H e.core)) →
      es.foldl (verifyStep H) r = (r.1 + es.length, r.2.1, r.2.2) := by
  intro es
  induction es with
  | nil => intro r _; simp
  | cons e t ih =>
    intro r h
    rw [List.foldl_cons]
    have he := h e (List.mem_cons_self e t)
    have hstep : verifyStep H r e = (r.1 + 1, r.2.1, r.2.2) := by
      rw [verifyStep, he]
      simp
    rw [hstep, ih _ (fun x hx => h x (List.mem_cons_of_mem e hx))]
    have : r.1 + 1 + t.length = r.1 + (t.length + 1) := by omega
    rw [this]
    rfl

theorem verify_replay_perfect (H : EntryCore → String) (cH : String → String)
    (sid : String) (acts : List (ActionInput × String × String)) :
    (verifyIntegrity H (replayLog H cH sid acts)).corrupted_entries = [] ∧
    (verifyIntegrity H (replayLog H cH sid acts)).missing_hashes = [] ∧
    (verifyIntegrity H (replayLog H cH sid acts)).verified_entries
      = (verifyIntegrity H (replayLog H cH sid acts)).total_entries ∧
    (verifyIntegrity H (replayLog H cH sid acts)).integrity_percentage = 100 := by
  have hs := replay_stamped H cH sid acts
  unfold verifyIntegrity
  rw [verify_foldl_stamped H _ _ hs]
  refine ⟨rfl, rfl, by simp, ?_⟩
  simp only []
  by_cases h0 : (replayLog H cH sid acts).length > 0
  · rw [if_pos h0]
    have hne : ((replayLog H cH sid acts).length : ℚ) ≠ 0 := by
      exact_mod_cast Nat.pos_iff_ne_zero.mp h0
    field_simp
  · rw [if_neg h0]

theorem verify_tampered_three (H : EntryCore → String) (cH : String → String)
    (sid : String) (a1 a2 a3 : ActionInput × String × String) (i : Nat) (hi : i < 3)
    (d : String)
    (hne : H { mkCore sid cH ([a1, a2, a3].getD i a1).1 ([a1, a2, a3].getD i a1).2.1
                 ([a1, a2, a3].getD i a1).2.2 with action_description := d }
         ≠ H (mkCore sid cH ([a1, a2, a3].getD i a1).1 ([a1, a2, a3].getD i a1).2.1
                 ([a1, a2, a3].getD i a1).2.2)) :
    (verifyIntegrity H (tamperDescription (replayLog H cH sid [a1, a2, a3]) i d)).corrupted_entries.length
        = 1 ∧
    (verifyIntegrity H (tamperDescription (replayLog H cH sid [a1, a2, a3]) i d)).missing_hashes
        = [] ∧
    (verifyIntegrity H (tamperDescription (replayLog H cH sid [a1, a2, a3]) i d)).integrity_percentage
        < 100 := by
  interval_cases i <;>
    (simp only [List.getD, List.get?, Option.getD_some] at hne
     refine ⟨?_, ?_, ?_⟩ <;>
       (simp [replayLog, logAction, tamperDescription, verifyIntegrity, verifyStep, hne]
        <;> norm_num))

/-- C1: on a freshly constructed ledger, any sequence of `log_action` calls
verifies with no corrupted entries, no missing hashes and integrity
percentage exactly 100; and after logging 3 actions and overwriting one
entry's `action_description` without recomputing its hash (so that the
recomputed hash differs from the stored one), `verify_integrity` reports
exactly 1 corrupted entry, no missing hashes, and a percentage below 100. -/
theorem c1_ledger_integrity (H : EntryCore → String) (cH : String → String)
    (sid : String) (acts : List (ActionInput × String × String))
    (a1 a2 a3 : ActionInput × String × String) (i : Nat) (hi : i < 3) (d : String)
    (hne : H { mkCore sid cH ([a1, a2, a3].getD i a1).1 ([a1, a2, a3].getD i a1).2.1
                 ([a1, a2, a3].getD i a1).2.2 with action_description := d }
         ≠ H (mkCore sid cH ([a1, a2, a3].getD i a1).1 ([a1, a2, a3].getD i a1).2.1
                 ([a1, a2, a3].getD i a1).2.2)) :
    ((verifyIntegrity H (replayLog H cH sid acts)).corrupted_entries = [] ∧
     (verifyIntegrity H (replayLog H cH sid acts)).missing_hashes = [] ∧
     (verifyIntegrity H (replayLog H cH sid acts)).verified_entries
        = (verifyIntegrity H (replayLog H cH sid acts)).total_entries ∧
     (verifyIntegrity H (replayLog H cH sid acts)).integrity_percentage = 100) ∧
    ((verifyIntegrity H
        (tamperDescription (replayLog H cH sid [a1, a2, a3]) i d)).corrupted_entries.length = 1 ∧
     (verifyIntegrity H
        (tamperDescription (replayLog H cH sid [a1, a2, a3]) i d)).missing_hashes = [] ∧
     (verifyIntegrity H
        (tamperDescription (replayLog H cH sid [a1, a2, a3]) i d)).integrity_percentage < 100) :=
  ⟨verify_replay_perfect H cH sid acts,
   verify_tampered_three H cH sid a1 a2 a3 i hi d hne⟩

/-- C1 witness: a concrete 3-action ledger with entry 1's description
overwritten, under a hash function that distinguishes the descriptions. -/
theorem c1_ledger_integrity_witness :
    ((verifyIntegrity (fun c => c.action_description)
        (replayLog (fun c => c.action_description) (fun s => s) "S"
          [({ action_type := "analysis", action_description := "one" }, "id1", "t1"),
           ({ action_type := "analysis", action_description := "two" }, "id2", "t2"),
           ({ action_type := "analysis", action_description := "three" }, "id3", "t3")])).corrupted_entries = [] ∧
     (verifyIntegrity (fun c => c.action_description)
        (replayLog (fun c => c.action_description) (fun s => s) "S"
          [({ action_type := "analysis", action_description := "one" }, "id1", "t1"),
           ({ action_type := "analysis", action_description := "two" }, "id2", "t2"),
           ({ action_type := "analysis", action_description := "three" }, "id3", "t3")])).missing_hashes = [] ∧
     (verifyIntegrity (fun c => c.action_description)
        (replayLog (fun c => c.action_description) (fun s => s) "S"
          [({ action_type := "analysis", action_description := "one" }, "id1", "t1"),
           ({ action_type := "analysis", action_description := "two" }, "id2", "t2"),
           ({ action_type := "analysis", action_description := "three" }, "id3", "t3")])).verified_entries
        = (verifyIntegrity (fun c => c.action_description)
            (replayLog (fun c => c.action_description) (fun s => s) "S"
              [({ action_type := "analysis", action_description := "one" }, "id1", "t1"),
               ({ action_type := "analysis", action_description := "two" }, "id2", "t2"),
               ({ action_type := "analysis", action_description := "three" }, "id3", "t3")])).total_entries ∧
     (verifyIntegrity (fun c => c.action_description)
        (replayLog (fun c => c.action_description) (fun s => s) "S"
          [({ action_type := "analysis", action_description := "one" }, "id1", "t1"),
           ({ action_type := "analysis", action_description := "two" }, "id2", "t2"),
           ({ action_type := "analysis", action_description := "three" }, "id3", "t3")])).integrity_percentage = 100) ∧
    ((verifyIntegrity (fun c => c.action_description)
        (tamperDescription
          (replayLog (fun c => c.action_description) (fun s => s) "S"
            [({ action_type := "analysis", action_description := "one" }, "id1", "t1"),
             ({ action_type := "analysis", action_description := "two" }, "id2", "t2"),
             ({ action_type := "analysis", action_description := "three" }, "id3", "t3")])
          1 "tampered")).corrupted_entries.length = 1 ∧
     (verifyIntegrity (fun c => c.action_description)
        (tamperDescription
          (replayLog (fun c => c.action_description) (fun s => s) "S"
            [({ action_type := "analysis", action_description := "one" }, "id1", "t1"),
             ({ action_type := "analysis", action_description := "two" }, "id2", "t2"),
             ({ action_type := "analysis", action_description := "three" }, "id3", "t3")])
          1 "tampered")).missing_hashes = [] ∧
     (verifyIntegrity (fun c => c.action_description)
        (tamperDescription
          (replayLog (fun c => c.action_description) (fun s => s) "S"
            [({ action_type := "analysis", action_description := "one" }, "id1", "t1"),
             ({ action_type := "analysis", action_description := "two" }, "id2", "t2"),
             ({ action_type := "analysis", action_description := "three" }, "id3", "t3")])
          1 "tampered")).integrity_percentage < 100) :=
  c1_ledger_integrity (fun c => c.action_description) (fun s => s) "S"
    [({ action_type := "analysis", action_description := "one" }, "id1", "t1"),
     ({ action_type := "analysis", action_description := "two" }, "id2", "t2"),
     ({ action_type := "analysis", action_description := "three" }, "id3", "t3")]
    ({ action_type := "analysis", action_description := "one" }, "id1", "t1")
    ({ action_type := "analysis", action_description := "two" }, "id2", "t2")
    ({ action_type := "analysis", action_description := "three" }, "id3", "t3")
    1 (by norm_num) "tampered" (by decide)

/-! ### Situation classification: C4 and C10 -/

theorem foldlMax_le_snd {α : Type} (init : α × Nat) (l : List (α × Nat)) :
    init.2 ≤ (l.foldl (fun b y => if y.2 > b.2 then y else b) init).2 := by
  induction l generalizing init with
  | nil => exact le_refl _
  | cons y t ih =>
    rw [List.foldl_cons]
    by_cases h : y.2 > init.2
    · rw [if_pos h]
      exact le_trans (le_of_lt h) (ih y)
    · rw [if_neg h]
      exact ih init

theorem foldlMax_ge_all {α : Type} (init : α × Nat) (l : List (α × Nat)) :
    ∀ y ∈ l, y.2 ≤ (l.foldl (fun b y => if y.2 > b.2 then y else b) init).2 := by
  induction l generalizing init with
  | nil => intro y hy; exact absurd hy (List.not_mem_nil y)
  | cons z t ih =>
    intro y hy
    rw [List.foldl_cons]
    rcases List.mem_cons.mp hy with h | h
    · subst h
      by_cases hz : y.2 > init.2
      · rw [if_pos hz]
        exact foldlMax_le_snd y t
      · rw [if_neg hz]
        exact le_trans (le_of_not_lt hz) (foldlMax_le_snd init t)
    · by_cases hz : z.2 > init.2
      · rw [if_pos hz]
        exact ih z y h
      · rw [if_neg hz]
        exact ih init y h

theorem foldlMax_eq_init_or_mem {α : Type} (init : α × Nat) (l : List (α × Nat)) :
    l.foldl (fun b y => if y.2 > b.2 then y else b) init = init ∨
      l.foldl (fun b y => if y.2 > b.2 then y else b) init ∈ l := by
  induction l generalizing init with
  | nil => exact Or.inl rfl
  | cons z t ih =>
    rw [List.foldl_cons]
    by_cases hz : z.2 > init.2
    · rw [if_pos hz]
      rcases ih z with h | h
      · refine Or.inr ?_
        rw [h]
        exact List.mem_cons_self z t
      · exact Or.inr (List.mem_cons_of_mem z h)
    · rw [if_neg hz]
      rcases ih init with h | h
      · exact Or.inl h
      · exact Or.inr (List.mem_cons_of_mem z h)

theorem foldlMax_eq_or_lt {α : Type} (init : α × Nat) (l : List (α × Nat)) :
    l.foldl (fun b y => if y.2 > b.2 then y else b) init = init ∨
      init.2 < (l.foldl (fun b y => if y.2 > b.2 then y else b) init).2 := by
  induction l generalizing init with
  | nil => exact Or.inl rfl
  | cons y t ih =>
    rw [List.foldl_cons]
    by_cases hy : y.2 > init.2
    · rw [if_pos hy]
      exact Or.inr (lt_of_lt_of_le hy (foldlMax_le_snd y t))
    · rw [if_neg hy]
      exact ih init

theorem foldlMax_find {α : Type} (init : α × Nat) (l : List (α × Nat)) :
    (init :: l).find?
        (fun p => p.2 == (l.foldl (fun b y => if y.2 > b.2 then y else b) init).2)
      = some (l.foldl (fun b y => if y.2 > b.2 then y else b) init) := by
  induction l generalizing init with
  | nil =>
    simp only [List.foldl_nil]
    rw [@List.find?_cons_of_pos (α × Nat) (fun p => p.2 == init.2) init [] (by simp)]
  | cons y t ih =>
    rw [List.foldl_cons]
    by_cases hy : y.2 > init.2
    · rw [if_pos hy]
      have hb : y.2 ≤ (t.foldl (fun b y => if y.2 > b.2 then y else b) y).2 :=
        foldlMax_le_snd y t
      have hinit : ¬ ((fun p : α × Nat => p.2 ==
          (t.foldl (fun b y => if y.2 > b.2 then y else b) y).2) init = true) := by
        simp only [beq_iff_eq]
        omega
      rw [@List.find?_cons_of_neg (α × Nat)
        (fun p => p.2 == (t.foldl (fun b y => if y.2 > b.2 then y else b) y).2)
        init (y :: t) hinit]
      exact ih y
    · rw [if_neg hy]
      have hble := foldlMax_le_snd init t
      by_cases hinit : init.2 = (t.foldl (fun b y => if y.2 > b.2 then y else b) init).2
      · rcases foldlMax_eq_or_lt init t with heq | hlt
        · rw [heq]
          rw [@List.find?_cons_of_pos (α × Nat) (fun p => p.2 == init.2) init (y :: t)
            (by simp)]
        · exact absurd hinit (by omega)
      · have hinitb : ¬ ((fun p : α × Nat => p.2 ==
            (t.foldl (fun b y => if y.2 > b.2 then y else b) init).2) init = true) := by
          simp only [beq_iff_eq]
          exact hinit
        have hyb : ¬ ((fun p : α × Nat => p.2 ==
            (t.foldl (fun b y => if y.2 > b.2 then y else b) init).2) y = true) := by
          simp only [beq_iff_eq]
          omega
        have ih2 := ih init
        rw [@List.find?_cons_of_neg (α × Nat)
          (fun p => p.2 == (t.foldl (fun b y => if y.2 > b.2 then y else b) init).2)
          init t hinitb] at ih2
        rw [@List.find?_cons_of_neg (α × Nat)
          (fun p => p.2 == (t.foldl (fun b y => if y.2 > b.2 then y else b) init).2)
          init (y :: t) hinitb]
        rw [@List.find?_cons_of_neg (α × Nat)
          (fun p => p.2 == (t.foldl (fun b y => if y.2 > b.2 then y else b) init).2)
          y t hyb]
        exact ih2

/-- C4 counterexample: on the text `"traffic fee fee fee"` the
occurrence-counting score of the spec's words has its unique nonzero
maximum at `fee_demand` (3 occurrences of `fee`, against 1 of `traffic`),
yet classification returns `traffic_stop`: the code scores each keyword at
most once (`if keyword in text`), not per occurrence. -/
theorem c4_type_scoring_ce :
    (occurrenceScores (str "traffic fee fee fee")).lookup "fee_demand" = some 3 ∧
    (∀ p ∈ occurrenceScores (str "traffic fee fee fee"), p.1 ≠ "fee_demand" → p.2 < 3) ∧
    identifySituationType (str "traffic fee fee fee") = "traffic_stop" ∧
    (interpretSituation (str "traffic fee fee fee") none "2025-01-17T00:00:00").type
      = "traffic_stop" := by
  refine ⟨by decide, by decide, by decide, ?_⟩
  show identifySituationType (normalizeText (str "traffic fee fee fee")) = "traffic_stop"
  decide

/-- C4 (amended): the classification score gives +1 per keyword *contained
in* the text and +3 per phrase *contained in* the text (each counted once,
regardless of the number of occurrences; substring containment); when all
category scores are zero the type is `general`, and otherwise the returned
type is a category whose score is positive and maximal. -/
theorem c4_type_scoring (text : Str) :
    ((∀ p ∈ situationScores text, p.2 = 0) → identifySituationType text = "general") ∧
    ((∃ p ∈ situationScores text, 0 < p.2) →
      ∃ q ∈ situationScores text, identifySituationType text = q.1 ∧ 0 < q.2 ∧
        ∀ r ∈ situationScores text, r.2 ≤ q.2) := by
  rcases hs : situationScores text with _ | ⟨x, xs⟩
  · constructor
    · intro _
      unfold identifySituationType firstMaxBy
      rw [hs]
    · rintro ⟨p, hp, _⟩
      exact absurd hp (List.not_mem_nil p)
  · have hident : identifySituationType text
        = (if (xs.foldl (fun b y => if y.2 > b.2 then y else b) x).2 > 0
           then (xs.foldl (fun b y => if y.2 > b.2 then y else b) x).1
           else "general") := by
      unfold identifySituationType firstMaxBy
      rw [hs]
    have hmemcons : xs.foldl (fun b y => if y.2 > b.2 then y else b) x ∈ x :: xs := by
      rcases foldlMax_eq_init_or_mem x xs with h | h
      · rw [h]
        exact List.mem_cons_self x xs
      · exact List.mem_cons_of_mem x h
    constructor
    · intro hall
      have hb0 := hall _ hmemcons
      rw [hident, hb0]
      simp
    · rintro ⟨p, hp, hppos⟩
      have hple : p.2 ≤ (xs.foldl (fun b y => if y.2 > b.2 then y else b) x).2 := by
        rcases List.mem_cons.mp hp with h | h
        · rw [h]
          exact foldlMax_le_snd x xs
        · exact foldlMax_ge_all x xs p h
      have hbpos : 0 < (xs.foldl (fun b y => if y.2 > b.2 then y else b) x).2 :=
        lt_of_lt_of_le hppos hple
      refine ⟨_, hmemcons, ?_, hbpos, ?_⟩
      · rw [hident, if_pos hbpos]
      · intro r hr
        rcases List.mem_cons.mp hr with h | h
        · rw [h]
          exact foldlMax_le_snd x xs
        · exact foldlMax_ge_all x xs r h

/-- C4 witness: the amended statement at concrete inputs — an all-zero text
classifies as `general`, and a text with positive scores gets a maximal
positive category. -/
theorem c4_type_scoring_witness :
    identifySituationType (str "xyz") = "general" ∧
    (∃ q ∈ situationScores (str "traffic fee"), identifySituationType (str "traffic fee") = q.1
      ∧ 0 < q.2 ∧ ∀ r ∈ situationScores (str "traffic fee"), r.2 ≤ q.2) :=
  ⟨(c4_type_scoring (str "xyz")).1 (by decide),
   (c4_type_scoring (str "traffic fee")).2 (by decide)⟩

set_option maxHeartbeats 1000000 in
/-- C10: when two or more categories tie for the highest nonzero score,
`interpret_situation` returns the category appearing earliest in the fixed
registry insertion order `traffic_stop, fee_demand, court_summons,
contract_dispute, administrative_action, property_dispute` — the first
maximal entry in iteration order of the pattern table. -/
theorem c10_tie_break (text : Str) (ctx : Option (List (String × String))) (now : String)
    (c₁ c₂ : String) (s : Nat)
    (h₁ : (c₁, s) ∈ situationScores (normalizeText text))
    (_h₂ : (c₂, s) ∈ situationScores (normalizeText text))
    (_hne : c₁ ≠ c₂) (hs : 0 < s)
    (hmax : ∀ r ∈ situationScores (normalizeText text), r.2 ≤ s) :
    (situationScores (normalizeText text)).map (·.1) =
      ["traffic_stop", "fee_demand", "court_summons", "contract_dispute",
       "administrative_action", "property_dispute"] ∧
    ∃ q, (situationScores (normalizeText text)).find? (fun p => p.2 == s) = some q ∧
      (interpretSituation text ctx now).type = q.1 := by
  constructor
  · rfl
  · rcases hsc : situationScores (normalizeText text) with _ | ⟨x, xs⟩
    · rw [hsc] at h₁
      exact absurd h₁ (List.not_mem_nil _)
    · rw [hsc] at h₁ hmax
      have hmemcons : xs.foldl (fun b y => if y.2 > b.2 then y else b) x ∈ x :: xs := by
        rcases foldlMax_eq_init_or_mem x xs with h | h
        · rw [h]
          exact List.mem_cons_self x xs
        · exact List.mem_cons_of_mem x h
      have hble : (xs.foldl (fun b y => if y.2 > b.2 then y else b) x).2 ≤ s :=
        hmax _ hmemcons
      have hsle : s ≤ (xs.foldl (fun b y => if y.2 > b.2 then y else b) x).2 := by
        rcases List.mem_cons.mp h₁ with h | h
        · subst h
          exact foldlMax_le_snd (c₁, s) xs
        · exact foldlMax_ge_all x xs (c₁, s) h
      have hbs : (xs.foldl (fun b y => if y.2 > b.2 then y else b) x).2 = s :=
        le_antisymm hble hsle
      refine ⟨xs.foldl (fun b y => if y.2 > b.2 then y else b) x, ?_, ?_⟩
      · rw [← hbs]
        exact foldlMax_find x xs
      · have hident : (interpretSituation text ctx now).type
            = identifySituationType (normalizeText text) := by
          simp only [interpretSituation]
        rw [hident]
        unfold identifySituationType firstMaxBy
        rw [hsc]
        have hbpos : (xs.foldl (fun b y => if y.2 > b.2 then y else b) x).2 > 0 := by
          rw [hbs]
          exact hs
        show (if (xs.foldl (fun b y => if y.2 > b.2 then y else b) x).2 > 0
              then (xs.foldl (fun b y => if y.2 > b.2 then y else b) x).1
              else "general") = (xs.foldl (fun b y => if y.2 > b.2 then y else b) x).1
        rw [if_pos hbpos]

/-- C10 witness: `"traffic fee"` scores 1 for both `traffic_stop` and
`fee_demand`; the tie resolves to `traffic_stop`, the earlier category. -/
theorem c10_tie_break_witness :
    (situationScores (normalizeText (str "traffic fee"))).map (·.1) =
      ["traffic_stop", "fee_demand", "court_summons", "contract_dispute",
       "administrative_action", "property_dispute"] ∧
    ∃ q, (situationScores (normalizeText (str "traffic fee"))).find? (fun p => p.2 == 1)
        = some q ∧
      (interpretSituation (str "traffic fee") none "2025-01-17T00:00:00").type = q.1 :=
  c10_tie_break (str "traffic fee") none "2025-01-17T00:00:00" "traffic_stop" "fee_demand" 1
    (by decide) (by decide) (by decide) (by decide) (by decide)

/-! ### Contradiction detection: C6 -/

theorem checkSCAux_confidence :
    ∀ (l : List (String × String)) (s1 s2 full : Str) (p : ContradictionPair),
      checkSentenceContradictionAux s1 s2 full l = some p → p.confidence = 4/5 := by
  intro l
  induction l with
  | nil =>
    intro s1 s2 full p h
    exact absurd h (by simp [checkSentenceContradictionAux])
  | cons pr rest ih =>
    rcases pr with ⟨p1, p2⟩
    intro s1 s2 full p h
    rw [checkSentenceContradictionAux] at h
    rcases hm1 : reSearch true p1 s1 with _ | m1
    · rw [hm1] at h
      exact ih s1 s2 full p h
    · rcases hm2 : reSearch true p2 s2 with _ | m2
      · rw [hm1, hm2] at h
        exact ih s1 s2 full p h
      · rw [hm1, hm2] at h
        rcases hf1 : strFind s1 full with _ | pos1
        · rw [hf1] at h
          exact ih s1 s2 full p h
        · rcases hf2 : strFind s2 full with _ | pos2
          · rw [hf1, hf2] at h
            exact ih s1 s2 full p h
          · rw [hf1, hf2] at h
            have := Option.some.inj h
            rw [← this]

/-- C6: on the text `"The defendant shall appear. The defendant shall not
appear."` the pattern-based contradiction detection produces a pair whose
first statement contains `"shall appear"` and whose second contains
`"shall not appear"`; and every pair produced by the pattern check
`_check_sentence_contradiction` has confidence exactly `0.8`. -/
theorem c6_contradiction_pairs :
    ((detectContradictionsNLP
        (str "The defendant shall appear. The defendant shall not appear.")).any
      (fun p => isSubstr (str "shall appear") p.statement1 &&
        isSubstr (str "shall not appear") p.statement2) = true) ∧
    (∀ (s1 s2 full : Str) (p : ContradictionPair),
      checkSentenceContradiction s1 s2 full = some p → p.confidence = 4/5) := by
  constructor
  · decide
  · intro s1 s2 full p h
    exact checkSCAux_confidence contradictionPatternPairs s1 s2 full p h

/-- C6 witness: a concrete sentence pair matched by the first pattern pair,
with its confidence-0.8 result. -/
theorem c6_contradiction_pairs_witness :
    checkSentenceContradiction (str "shall") (str "shall not") (str "shall shall not")
      = some
        { statement1 := str "shall", statement2 := str "shall not", confidence := 4/5,
          explanation := str "Contradictory patterns detected: " ++ quoteChar ++
            str "shall" ++ quoteChar ++ str " vs " ++ quoteChar ++ str "shall not" ++ quoteChar,
          location1 := (0, 5), location2 := (6, 15) } ∧
    ({ statement1 := str "shall", statement2 := str "shall not", confidence := 4/5,
       explanation := str "Contradictory patterns detected: " ++ quoteChar ++
         str "shall" ++ quoteChar ++ str " vs " ++ quoteChar ++ str "shall not" ++ quoteChar,
       location1 := (0, 5), location2 := (6, 15) } : ContradictionPair).confidence = 4/5 :=
  ⟨by rfl,
   c6_contradiction_pairs.2 (str "shall") (str "shall not") (str "shall shall not") _ (by rfl)⟩

end VB
